import Mathlib

/-! # linear-intersection: a shallow embedding of `src/main.c`

The program reads six positional tokens `x1 y1 m1 x2 y2 m2` and up to three
flags, resolves the two slopes (raw gradient, degrees or radians), solves the
point-slope system and prints both equations and the intersection.

The embedding follows the C text function by function.  The `double` type is a
type parameter `F`:

* the arithmetic operators of C are the operators of `F` (`+ - * /` and unary
  minus), so `F := ℚ` or any field gives exact arithmetic;
* what the language and the C library supply on doubles (`!=`, constants,
  `fpclassify`, `strtod`, `printf("%g")`, `tan`, `M_PI`, `M_PI_2`) is supplied
  by the classes `CFloat`, `CLibc` and `CMath`.

`Double` is a model of IEEE-754 binary64 with round-to-nearest-even arithmetic
and of `strtod` / `printf("%g")` after ISO C; it instantiates the classes, so
that the program can be evaluated on concrete command lines.

Standard output is explicit state: every function that can terminate the
process receives the text printed so far and hands it back in the `Outcome`.
-/

namespace LinearIntersection

/-! ## Floating-point classes -/

/-- Values returned by `fpclassify` (math.h). -/
inductive FpClass
  | FP_NAN
  | FP_INFINITE
  | FP_ZERO
  | FP_SUBNORMAL
  | FP_NORMAL
deriving DecidableEq, Repr

open FpClass

/-! ## IEEE-754 binary64 -/

/-- An IEEE-754 binary64 datum as its three bit fields: sign bit, 11-bit biased exponent,
52-bit fraction. -/
structure Double where
  sign : Bool
  exponent : Nat
  fraction : Nat
deriving DecidableEq, Repr

namespace Double

/-- NaN: exponent field all ones, fraction nonzero. -/
def isNaN (x : Double) : Bool := x.exponent = 2047 ∧ x.fraction ≠ 0
/-- Infinity: exponent field all ones, fraction zero. -/
def isInf (x : Double) : Bool := x.exponent = 2047 ∧ x.fraction = 0
/-- Zero of either sign. -/
def isZero (x : Double) : Bool := x.exponent = 0 ∧ x.fraction = 0

/-- The quiet NaN produced by invalid operations (its sign and payload are not modelled). -/
def nan : Double := ⟨false, 2047, 2 ^ 51⟩
/-- Infinity of the given sign. -/
def inf (sign : Bool) : Double := ⟨sign, 2047, 0⟩
/-- Zero of the given sign. -/
def zero (sign : Bool) : Double := ⟨sign, 0, 0⟩

/-- The macro `fpclassify` on binary64: a case split on the exponent and fraction fields. -/
def classify (x : Double) : FpClass :=
  if x.exponent = 2047 then (if x.fraction = 0 then FP_INFINITE else FP_NAN)
  else if x.exponent = 0 then (if x.fraction = 0 then FP_ZERO else FP_SUBNORMAL)
  else FP_NORMAL

/-- The rational value of a finite datum. -/
def toRat (x : Double) : ℚ :=
  let m : Nat := if x.exponent = 0 then x.fraction else 2 ^ 52 + x.fraction
  let e : Int := (max x.exponent 1 : Nat) - 1075
  let a : ℚ := if 0 ≤ e then ((m * 2 ^ e.toNat : Nat) : ℚ) else (m : ℚ) / ((2 ^ (-e).toNat : Nat) : ℚ)
  if x.sign then -a else a

/-- Number of base-`b` digits of a positive number. -/
def digitCount (b n : Nat) : Nat := (Nat.toDigits b n).length

/-- The integer `floor (log_b (n / d))` for positive `n`, `d`. -/
def ilog (b n d : Nat) : Int :=
  let e0 : Int := (digitCount b n : Int) - (digitCount b d : Int)
  let ge : Bool := if 0 ≤ e0 then d * b ^ e0.toNat ≤ n else d ≤ n * b ^ (-e0).toNat
  if ge then e0 else e0 - 1

/-- The integer nearest to `n / d`, ties to even. -/
def roundNearestEven (n d : Nat) : Nat :=
  let m := n / d
  let r := n % d
  if d < 2 * r ∨ (2 * r = d ∧ m % 2 = 1) then m + 1 else m

/-- The integer nearest (ties to even) to `(n / d) / b ^ e`. -/
def roundScaled (b n d : Nat) (e : Int) : Nat :=
  if 0 ≤ e then roundNearestEven n (d * b ^ e.toNat) else roundNearestEven (n * b ^ (-e).toNat) d

/-- Rounding of an exact rational result to binary64, round-to-nearest-even; `zeroSign` is the
sign given to an exact zero. -/
def ofRat (zeroSign : Bool) (q : ℚ) : Double :=
  if q = 0 then zero zeroSign
  else
    let s : Bool := decide (q < 0)
    let n := q.num.natAbs
    let d := q.den
    let e := ilog 2 n d
    let qexp : Int := max e (-1022) - 52
    let m := roundScaled 2 n d qexp
    let m' := if m = 2 ^ 53 then 2 ^ 52 else m
    let qexp' := if m = 2 ^ 53 then qexp + 1 else qexp
    if m' < 2 ^ 52 then ⟨s, 0, m'⟩
    else if 2047 ≤ qexp' + 1075 then inf s
    else ⟨s, (qexp' + 1075).toNat, m' - 2 ^ 52⟩

/-- Unary minus: flips the sign bit. -/
def neg (x : Double) : Double := { x with sign := !x.sign }

/-- IEEE-754 addition, round to nearest even. -/
def add (x y : Double) : Double :=
  if x.isNaN ∨ y.isNaN then nan
  else if x.isInf then (if y.isInf ∧ x.sign ≠ y.sign then nan else x)
  else if y.isInf then y
  else ofRat (x.sign && y.sign) (x.toRat + y.toRat)

/-- IEEE-754 subtraction: `x + (-y)`. -/
def sub (x y : Double) : Double := add x (neg y)

/-- IEEE-754 multiplication, round to nearest even. -/
def mul (x y : Double) : Double :=
  if x.isNaN ∨ y.isNaN then nan
  else if (x.isInf ∧ y.isZero) ∨ (x.isZero ∧ y.isInf) then nan
  else if x.isInf ∨ y.isInf then inf (xor x.sign y.sign)
  else ofRat (xor x.sign y.sign) (x.toRat * y.toRat)

/-- IEEE-754 division, round to nearest even. -/
def div (x y : Double) : Double :=
  if x.isNaN ∨ y.isNaN then nan
  else if (x.isInf ∧ y.isInf) ∨ (x.isZero ∧ y.isZero) then nan
  else if x.isInf ∨ y.isZero then inf (xor x.sign y.sign)
  else if y.isInf then zero (xor x.sign y.sign)
  else ofRat (xor x.sign y.sign) (x.toRat / y.toRat)

/-- The C operator `!=`: true when either side is NaN, false for two zeros of any sign. -/
def ne (x y : Double) : Bool :=
  if x.isNaN ∨ y.isNaN then true
  else if x.isZero ∧ y.isZero then false
  else decide (x ≠ y)

instance : Add Double := ⟨add⟩
instance : Sub Double := ⟨sub⟩
instance : Mul Double := ⟨mul⟩
instance : Div Double := ⟨div⟩
instance : Neg Double := ⟨neg⟩

/-- The rational `m * b ^ e`. -/
def scale (b m : Nat) (e : Int) : ℚ :=
  if 0 ≤ e then ((m * b ^ e.toNat : Nat) : ℚ) else (m : ℚ) / ((b ^ (-e).toNat : Nat) : ℚ)

/-! ### `strtod` -/

/-- The C-locale `isspace`. -/
def isspace (c : Char) : Bool := c.toNat = 32 ∨ (9 ≤ c.toNat ∧ c.toNat ≤ 13)

/-- Value of a decimal digit. -/
def decVal (c : Char) : Option Nat :=
  if 48 ≤ c.toNat ∧ c.toNat ≤ 57 then some (c.toNat - 48) else none

/-- Value of a hexadecimal digit. -/
def hexVal (c : Char) : Option Nat :=
  if 48 ≤ c.toNat ∧ c.toNat ≤ 57 then some (c.toNat - 48)
  else if 97 ≤ c.toNat ∧ c.toNat ≤ 102 then some (c.toNat - 87)
  else if 65 ≤ c.toNat ∧ c.toNat ≤ 70 then some (c.toNat - 55)
  else none

/-- Reads the longest run of digits: the accumulated value, the number of digits read and the
remaining characters. -/
def scanDigits (val : Char → Option Nat) (b : Nat) : List Char → Nat → Nat → Nat × Nat × List Char
  | [], acc, k => (acc, k, [])
  | c :: cs, acc, k =>
    match val c with
    | some v => scanDigits val b cs (acc * b + v) (k + 1)
    | none => (acc, k, c :: cs)

/-- Reads `digits [. digits]` with at least one digit: the value of all digits read as one
integer, the number of digits after the point, the number of characters consumed and the rest;
`none` when there is no digit. -/
def scanMantissa (val : Char → Option Nat) (b : Nat) (s : List Char) :
    Option (Nat × Nat × Nat × List Char) :=
  let i := scanDigits val b s 0 0
  match i.2.2 with
  | '.' :: r =>
    let f := scanDigits val b r i.1 0
    if i.2.1 + f.2.1 = 0 then none else some (f.1, f.2.1, i.2.1 + 1 + f.2.1, f.2.2)
  | _ => if i.2.1 = 0 then none else some (i.1, 0, i.2.1, i.2.2)

/-- Reads an optional exponent part (`e`/`E` or `p`/`P`, optional sign, at least one decimal
digit): its value and the number of characters consumed (`0` when absent). -/
def scanExponent (lower upper : Char) (s : List Char) : Int × Nat :=
  match s with
  | c :: r =>
    if c = lower ∨ c = upper then
      let sg : Bool × Nat × List Char :=
        match r with
        | '+' :: t => (false, 1, t)
        | '-' :: t => (true, 1, t)
        | _ => (false, 0, r)
      let d := scanDigits decVal 10 sg.2.2 0 0
      if d.2.1 = 0 then (0, 0)
      else (if sg.1 then -(d.1 : Int) else (d.1 : Int), 1 + sg.2.1 + d.2.1)
    else (0, 0)
  | [] => (0, 0)

/-- Whether `s` starts with `pat` (given in lower case), ignoring case. -/
def startsWithCI (pat s : List Char) : Bool :=
  (s.take pat.length).map Char.toLower = pat

/-- Length of a `(n-char-sequence)` suffix of `nan`, `0` when there is none. -/
def scanNanPayload (s : List Char) : Nat :=
  match s with
  | '(' :: r =>
    let body := r.takeWhile (fun c => c.isAlphanum ∨ c = '_')
    match r.drop body.length with
    | ')' :: _ => body.length + 2
    | _ => 0
  | _ => 0

/-- The subject sequence after white space and sign: value and characters consumed
(`none`: no conversion). -/
def scanBody (neg : Bool) (s : List Char) : Option (Double × Nat) :=
  if startsWithCI "infinity".toList s then some (inf neg, 8)
  else if startsWithCI "inf".toList s then some (inf neg, 3)
  else if startsWithCI "nan".toList s then some ({ nan with sign := neg }, 3 + scanNanPayload (s.drop 3))
  else
    let hex : Option (Double × Nat) :=
      if startsWithCI "0x".toList s then
        match scanMantissa hexVal 16 (s.drop 2) with
        | some (m, fk, k, r) =>
          let e := scanExponent 'p' 'P' r
          let q := scale 2 m (e.1 - 4 * fk)
          some (ofRat neg (if neg then -q else q), 2 + k + e.2)
        | none => none
      else none
    match hex with
    | some r => some r
    | none =>
      match scanMantissa decVal 10 s with
      | some (m, fk, k, r) =>
        let e := scanExponent 'e' 'E' r
        let q := scale 10 m (e.1 - fk)
        some (ofRat neg (if neg then -q else q), k + e.2)
      | none => none

/-- The function `strtod` on a NUL-terminated string given as its characters: the value and the
number of characters consumed; no conversion gives `(+0, 0)`. -/
def strtod (string : String) : Double × Nat :=
  let s := string.toList
  let ws := (s.takeWhile isspace).length
  let s1 := s.drop ws
  let sg : Bool × Nat × List Char :=
    match s1 with
    | '+' :: t => (false, 1, t)
    | '-' :: t => (true, 1, t)
    | _ => (false, 0, s1)
  match scanBody sg.1 sg.2.2 with
  | some (v, k) => (v, ws + sg.2.1 + k)
  | none => (zero false, 0)

/-! ### `printf("%g")` -/

/-- Removes trailing `0` characters. -/
def stripZeros (l : List Char) : List Char :=
  (l.reverse.dropWhile (fun c => c = '0')).reverse

/-- A fractional part: empty when no digit is left, else a point and the digits. -/
def fracPart (l : List Char) : List Char :=
  if stripZeros l = [] then [] else '.' :: stripZeros l

/-- The conversions `%.*g` and `%+.*g` (flag `plus`). -/
def printf_g (plus : Bool) (precision : Nat) (v : Double) : String :=
  let sg : String := if v.sign then "-" else if plus then "+" else ""
  if v.isNaN then sg ++ "nan"
  else if v.isInf then sg ++ "inf"
  else if v.isZero then sg ++ "0"
  else
    let P := if precision = 0 then 1 else precision
    let n := v.toRat.num.natAbs
    let d := v.toRat.den
    let e10 := ilog 10 n d
    let D0 := roundScaled 10 n d (e10 - (P - 1 : Nat))
    let D := if D0 = 10 ^ P then 10 ^ (P - 1) else D0
    let X : Int := if D0 = 10 ^ P then e10 + 1 else e10
    let ds := Nat.toDigits 10 D
    if X < -4 ∨ (P : Int) ≤ X then
      let ex := Nat.toDigits 10 X.natAbs
      sg ++ String.mk (ds.take 1 ++ fracPart (ds.drop 1) ++ ['e', if X < 0 then '-' else '+'] ++
        (if ex.length < 2 then '0' :: ex else ex))
    else if 0 ≤ X then
      sg ++ String.mk (ds.take (X.toNat + 1) ++ fracPart (ds.drop (X.toNat + 1)))
    else
      sg ++ String.mk ('0' :: fracPart (List.replicate ((-X).toNat - 1) '0' ++ ds))

/-! ### math.h -/

/-- Function `tan` of libm as far as ISO C Annex F fixes it: `tan(±0)` is `±0`, and `tan(±∞)`,
`tan(NaN)` are NaN.  At the other arguments the value is libm's approximation of the tangent,
which is not modelled: the definition answers NaN there, and no statement below evaluates it at
such an argument. -/
def tan (x : Double) : Double := if x.isZero then x else nan

/-- Constant `M_PI` of math.h, `3.14159265358979323846`, as a double. -/
def M_PI : Double := ofRat false (314159265358979323846 / 100000000000000000000)

/-- Constant `M_PI_2` of math.h, `1.57079632679489661923`, as a double. -/
def M_PI_2 : Double := ofRat false (157079632679489661923 / 100000000000000000000)

end Double

/-! ## The C facilities used by the program -/

/-- The C declaration `enum mode`, with `GRADIENT` the initial value of the global `mode`. -/
inductive Mode
  | GRADIENT
  | DEGREES
  | RADIANS
deriving DecidableEq, Repr

open Mode

/-- Language-level facilities of `double`: integer-valued constants (`0`, `1`, `180.0`),
the operator `!=`, and `fpclassify`. -/
class CFloat (F : Type) where
  /-- The double denoted by an integer-valued constant. -/
  lit : Nat → F
  /-- The C operator `!=`. -/
  ne : F → F → Bool
  /-- The macro `fpclassify`. -/
  fpclassify : F → FpClass

/-- The two stdlib/stdio services used on doubles. -/
class CLibc (F : Type) where
  /-- Function `strtod`: the converted value and `endptr - string`, the number of characters
  consumed (`0` when no conversion is performed). -/
  strtod : String → F × Nat
  /-- Conversion `printf("%.*g", precision, v)`, or `"%+.*g"` when the first argument is `true`. -/
  printf_g : Bool → Nat → F → String

/-- The pieces of math.h used for slope resolution. -/
class CMath (F : Type) where
  /-- Function `tan`. -/
  tan : F → F
  /-- Constant `M_PI`. -/
  M_PI : F
  /-- Constant `M_PI_2`. -/
  M_PI_2 : F

export CFloat (lit fpclassify)
export CLibc (strtod printf_g)
export CMath (tan M_PI M_PI_2)

instance : CFloat Double := ⟨fun n => Double.ofRat false (n : ℚ), Double.ne, Double.classify⟩

instance : CLibc Double := ⟨Double.strtod, Double.printf_g⟩

instance : CMath Double := ⟨Double.tan, Double.M_PI, Double.M_PI_2⟩

/-- Exact rational arithmetic: every value is finite and there is no subnormal range, so a value
is classified `FP_ZERO` or `FP_NORMAL`. -/
instance : CFloat ℚ :=
  ⟨fun n => (n : ℚ), fun a b => decide (a ≠ b), fun q => if q = 0 then FP_ZERO else FP_NORMAL⟩

/-! ## Data model of the program -/

/-- The constant `DBL_DECIMAL_DIG` of float.h for IEEE-754 binary64. -/
def DBL_DECIMAL_DIG : Nat := 17

/-- The macro `DIGITS`, that is `(DBL_DECIMAL_DIG - 1)`. -/
def DIGITS : Nat := DBL_DECIMAL_DIG - 1

/-- The C declaration `struct line`. -/
structure Line (F : Type) where
  x : F
  y : F
  gradient_input : F
  gradient : F
deriving DecidableEq, Repr

/-- How a run ends: the exit status, everything written to standard output, and the message
handed to `errx` (empty when the run does not end in `errx`). -/
structure Outcome where
  status : Nat
  stdout : String
  stderr : String
deriving DecidableEq, Repr

/-- The call `errx(status, msg)`: the process ends with `status`; standard output keeps what
was printed before the call. -/
def errx (out : String) (status : Nat) (msg : String) : Outcome :=
  ⟨status, out, msg⟩

/-! ## `parse_double_argument` -/

/-- The function `parse_double_argument(argv, arg_name, &arg_index, &value)`.
`.ok (val, arg_index + 1)` is the normal return (`*value = val; ++*arg_index`), `.error` is the
`errx(2, ...)` exit.  `endptr` is kept as an offset into `string`; `*endptr != 0` says that
the offset is before the terminating NUL.  `main` calls it only with `arg_index` below the
number of tokens, so the default of `getD` is never used. -/
def parse_double_argument {F : Type} [CFloat F] [CLibc F] (out : String) (argv : List String)
    (arg_name : String) (arg_index : Nat) : Except Outcome (F × Nat) :=
  let string := argv.getD arg_index ""
  let r : F × Nat := strtod string
  let val := r.1
  let endptr := r.2
  let cls := fpclassify val
  if endptr = 0 ∨ endptr < string.length ∨ (cls ≠ FP_NORMAL ∧ cls ≠ FP_ZERO) then
    .error (errx out 2 (arg_name ++ ": " ++ string ++ ": not a valid floating point number"))
  else
    .ok (val, arg_index + 1)

/-! ## `print_line` -/

/-- The function `print_line(x, y, m, m_actual)`, reading the globals `mode` and `subtract90`;
the result is the text it writes to standard output. -/
def print_line {F : Type} [Neg F] [CFloat F] [CLibc F] (mode : Mode) (subtract90 : Bool)
    (x y m m_actual : F) : String :=
  "y=" ++
  (if CFloat.ne m_actual (lit 0) then
    (if CFloat.ne m_actual (lit 1) then
      (if mode ≠ GRADIENT then "tan(" else "") ++
      printf_g false DIGITS m ++
      (if mode = DEGREES then "°" else "") ++
      (if subtract90 then
        (if mode = RADIANS then "-π/2" else "") ++ (if mode = DEGREES then "-90°" else "")
      else "") ++
      (if mode ≠ GRADIENT then ")" else "") ++
      "*"
    else "") ++
    (if CFloat.ne x (lit 0) then "(x" ++ printf_g true DIGITS (-x) ++ ")" else "x") ++
    (if CFloat.ne y (lit 0) then printf_g true DIGITS y else "")
  else
    printf_g false DIGITS y) ++
  "\n"

/-! ## `main`: option loop and usage checks -/

/-- The globals `mode`, `subtract90` and the local `invalid` of `main`. -/
structure Flags where
  mode : Mode
  subtract90 : Bool
  invalid : Bool
deriving DecidableEq, Repr

/-- The state before the first option: `mode = GRADIENT`, `subtract90 = false`,
`invalid = false`. -/
def Flags.init : Flags := ⟨GRADIENT, false, false⟩

/-- The text printed for `-h`; `PROJECT_NAME` is a macro supplied by the build. -/
def help_text (PROJECT_NAME : String) : String :=
  "Usage: " ++ PROJECT_NAME ++ " [OPTION]... x1 y1 m1 x2 y2 m2\n" ++
  "put -- before the arguments if using negative numbers\n" ++
  "y = m1*(x-x1) + y1, where x1 and y1 are the offsets\n" ++
  "if you want to use regular y = m*x + c, set x1 to 0 and y1 as c\n" ++
  "m1 is the gradient\n" ++
  "same goes for x2/y2/m2\n" ++
  "-h --help: Shows help text\n" ++
  "-s --subtract90: Subtract 90° from the gradient (useful for Minecraft stronghold)\n" ++
  "-d --degrees: Use degrees for the gradient\n" ++
  "-r --radians: Use radians for the gradient\n"

/-- The `default:` arm of the outer `switch (opt)`: one option character other than `h`. -/
def option_step (st : Flags) (opt : Char) : Flags :=
  if !st.invalid then
    if opt = 's' then { st with subtract90 := true }
    else if opt = 'd' then
      if st.mode ≠ GRADIENT then { st with invalid := true } else { st with mode := DEGREES }
    else if opt = 'r' then
      if st.mode ≠ GRADIENT then { st with invalid := true } else { st with mode := RADIANS }
    else { st with invalid := true }
  else st

/-- The `while ((opt = getopt_long(...)) != -1)` loop over the option characters that
`getopt_long` returns, in order.  `.error` is the `return 0` of the `h` arm. -/
def option_loop (PROJECT_NAME : String) (out : String) : List Char → Flags → Except Outcome Flags
  | [], st => .ok st
  | opt :: rest, st =>
    if opt = 'h' then .error ⟨0, out ++ help_text PROJECT_NAME, ""⟩
    else option_loop PROJECT_NAME out rest (option_step st opt)

/-- The two usage checks after the loop; `nargs` is `argc - optind`, so `optind != argc - 6`
reads `nargs ≠ 6`. -/
def check_usage (out : String) (st : Flags) (nargs : Nat) : Except Outcome Unit :=
  if nargs ≠ 6 ∨ st.invalid = true then
    .error (errx out 1 "Invalid usage, try --help")
  else if st.mode = GRADIENT ∧ st.subtract90 = true then
    .error (errx out 1 "--subtract90 requires --radians or --degrees")
  else .ok ()

/-! ## `main`: parsing and slope resolution -/

/-- The six `parse_double_argument` calls starting at `i = optind`, followed by
`m1 = m1_; m2 = m2_;`: the array `lines[2]`. -/
def parse_lines {F : Type} [CFloat F] [CLibc F] (out : String) (argv : List String)
    (optind : Nat) : Except Outcome (Line F × Line F) := do
  let i := optind
  let (x1, i) ← parse_double_argument (F := F) out argv "x1" i
  let (y1, i) ← parse_double_argument (F := F) out argv "y1" i
  let (m1_, i) ← parse_double_argument (F := F) out argv "m1" i
  let (x2, i) ← parse_double_argument (F := F) out argv "x2" i
  let (y2, i) ← parse_double_argument (F := F) out argv "y2" i
  let (m2_, _) ← parse_double_argument (F := F) out argv "m2" i
  return (⟨x1, y1, m1_, m1_⟩, ⟨x2, y2, m2_, m2_⟩)

/-- The body shared by `case DEGREES` (by fall-through) and `case RADIANS`. -/
def resolve_radians {F : Type} [Sub F] [CMath F] (subtract90 : Bool)
    (lines : Line F × Line F) : Line F × Line F :=
  let m1 := if subtract90 then lines.1.gradient - M_PI_2 else lines.1.gradient
  let m2 := if subtract90 then lines.2.gradient - M_PI_2 else lines.2.gradient
  ({ lines.1 with gradient := tan m1 }, { lines.2 with gradient := tan m2 })

/-- The statement `switch (mode)` under "find gradient". -/
def resolve_gradients {F : Type} [Sub F] [Mul F] [Div F] [CFloat F] [CMath F] (mode : Mode)
    (subtract90 : Bool) (lines : Line F × Line F) : Line F × Line F :=
  match mode with
  | DEGREES =>
    resolve_radians subtract90
      ({ lines.1 with gradient := lines.1.gradient * M_PI / lit 180 },
       { lines.2 with gradient := lines.2.gradient * M_PI / lit 180 })
  | RADIANS => resolve_radians subtract90 lines
  | GRADIENT => lines

/-! ## `main`: solver -/

/-- The local `gradient` of `main`: `m1 - m2`. -/
def gradient {F : Type} [Sub F] (m1 m2 : F) : F := m1 - m2

/-- The local `x_intersect` of `main`. -/
def x_intersect {F : Type} [Add F] [Sub F] [Mul F] [Div F] (x1 y1 m1 x2 y2 m2 : F) : F :=
  (y2 - y1 - m2 * x2 + m1 * x1) / (gradient m1 m2)

/-- The local `y_intersect` of `main`. -/
def y_intersect {F : Type} [Add F] [Sub F] [Mul F] [Div F] (x1 y1 m1 x2 y2 m2 : F) : F :=
  m1 * (x_intersect x1 y1 m1 x2 y2 m2 - x1) + y1

/-- The `switch (class)` on `fpclassify(gradient)` and the two assignments after it:
`.ok (x_intersect, y_intersect)` when control reaches the prints, `.error` for an `errx(3, ...)`. -/
def solve {F : Type} [Add F] [Sub F] [Mul F] [Div F] [CFloat F] (out : String)
    (lines : Line F × Line F) : Except Outcome (F × F) :=
  let x1 := lines.1.x
  let y1 := lines.1.y
  let m1 := lines.1.gradient
  let x2 := lines.2.x
  let y2 := lines.2.y
  let m2 := lines.2.gradient
  match fpclassify (gradient m1 m2) with
  | FP_NORMAL => .ok (x_intersect x1 y1 m1 x2 y2 m2, y_intersect x1 y1 m1 x2 y2 m2)
  | FP_ZERO => .error (errx out 3 "Lines cannot be parallel")
  | _ => .error (errx out 3 "Error calculating intersection")

/-! ## `main` -/

/-- The two `print_line` calls and the three `printf` calls that end `main`; the result is
standard output after them. -/
def print_result {F : Type} [Neg F] [CFloat F] [CLibc F] (mode : Mode) (subtract90 : Bool)
    (out : String) (lines : Line F × Line F) (x_intersect y_intersect : F) : String :=
  out ++
  print_line mode subtract90 lines.1.x lines.1.y lines.1.gradient_input lines.1.gradient ++
  print_line mode subtract90 lines.2.x lines.2.y lines.2.gradient_input lines.2.gradient ++
  ("x = " ++ printf_g false DIGITS x_intersect ++ "\n") ++
  ("y = " ++ printf_g false DIGITS y_intersect ++ "\n") ++
  ("(" ++ printf_g false DIGITS x_intersect ++ ", " ++ printf_g false DIGITS y_intersect ++ ")\n")

/-- The function `main`, from the option loop to `return 0`.  `opts` are the characters
returned by the successive `getopt_long` calls, `args` is `argv[optind .. argc-1]` after that
loop, so that `i = optind` is index `0` of `args`.  `.error` is an early end of the process
(help or `errx`), `.ok` the final `return 0`. -/
def main_run {F : Type} [Add F] [Sub F] [Mul F] [Div F] [Neg F] [CFloat F] [CLibc F] [CMath F]
    (PROJECT_NAME : String) (opts : List Char) (args : List String) :
    Except Outcome Outcome := do
  let out := ""
  let st ← option_loop PROJECT_NAME out opts Flags.init
  check_usage out st args.length
  let lines ← parse_lines (F := F) out args 0
  let lines := resolve_gradients st.mode st.subtract90 lines
  let p ← solve out lines
  let out := print_result st.mode st.subtract90 out lines p.1 p.2
  return ⟨0, out, ""⟩

/-- The function `main` as a total function to the way the process ends. -/
def main {F : Type} [Add F] [Sub F] [Mul F] [Div F] [Neg F] [CFloat F] [CLibc F] [CMath F]
    (PROJECT_NAME : String) (opts : List Char) (args : List String) : Outcome :=
  match main_run (F := F) PROJECT_NAME opts args with
  | .ok o => o
  | .error o => o

/-! ## Vocabulary of the statements -/

-- Equality of two ways a stage can end is decidable.
deriving instance DecidableEq for Except

/-- Whether an option character is one of the two angle-mode flags `d`, `r`. -/
def isModeFlag (c : Char) : Bool := c = 'd' ∨ c = 'r'

/-- Whether an option character is one of the recognised flags `s`, `d`, `r`. -/
def isKnownFlag (c : Char) : Bool := c = 's' ∨ c = 'd' ∨ c = 'r'

/-- The slope coefficient as the specification words it: the raw input in `GRADIENT` mode; in
the angle modes `tan(`, the raw input, `°` in `DEGREES` mode, then under the subtract flag
`-90°` in `DEGREES` mode and `-π/2` in `RADIANS` mode, and `)`. -/
def spec_slope_coefficient {F : Type} [CLibc F] (mode : Mode) (subtract90 : Bool)
    (m_input : F) : String :=
  match mode with
  | GRADIENT => printf_g false DIGITS m_input
  | DEGREES =>
    "tan(" ++ printf_g false DIGITS m_input ++ "°" ++ (if subtract90 then "-90°" else "") ++ ")"
  | RADIANS =>
    "tan(" ++ printf_g false DIGITS m_input ++ (if subtract90 then "-π/2" else "") ++ ")"

/-- The names that `main` passes to the six `parse_double_argument` calls, in call order. -/
def arg_names : List String := ["x1", "y1", "m1", "x2", "y2", "m2"]

/-- The test of `parse_double_argument` on one token: whether the token is rejected. -/
def rejected (F : Type) [CFloat F] [CLibc F] (token : String) : Prop :=
  (strtod (F := F) token).2 = 0 ∨ (strtod (F := F) token).2 < token.length ∨
    (fpclassify (strtod (F := F) token).1 ≠ FP_NORMAL ∧
      fpclassify (strtod (F := F) token).1 ≠ FP_ZERO)

instance (F : Type) [CFloat F] [CLibc F] (token : String) : Decidable (rejected F token) := by
  unfold rejected
  infer_instance

/-- A run of consecutive `parse_double_argument` calls, one per name, with the memory they write
made explicit: `stored` lists the values already written through `value`, in call order.  The
result is the store when the calls end, and either the final index or the `errx` outcome of the
call that failed. -/
def parse_sequence {F : Type} [CFloat F] [CLibc F] (out : String) (argv : List String) :
    List String → Nat → List F → List F × Except Outcome Nat
  | [], i, stored => (stored, .ok i)
  | arg_name :: rest, i, stored =>
    match parse_double_argument (F := F) out argv arg_name i with
    | .ok (val, j) => parse_sequence out argv rest j (stored ++ [val])
    | .error o => (stored, .error o)

namespace Double

/-- The math.h facilities on binary64 around a given tangent function `t`: the constants are
those of math.h, and `t` stands for the `tan` of the C library in use. -/
def libm (t : Double → Double) : CMath Double := ⟨t, Double.M_PI, Double.M_PI_2⟩

/-- A tangent function for closed evaluations in degrees mode: `Double.tan` extended at the three
arguments that occur there, `M_PI_2 = 0x3FF921FB54442D18` (from the input 90) and
`±0x3FE921FB54442D18` (from the inputs ±45),
with the values the C library returns: `0x434D02967C31CDB5`, that is 16331239353195370, and
`±0x3FEFFFFFFFFFFFFF`, that is `±(1 - 2^-53)`. -/
def tan_table (x : Double) : Double :=
  if x = ⟨false, 1023, 0x921FB54442D18⟩ then ⟨false, 1076, 0xD02967C31CDB5⟩
  else if x = ⟨false, 1022, 0x921FB54442D18⟩ then ⟨false, 1022, 0xFFFFFFFFFFFFF⟩
  else if x = ⟨true, 1022, 0x921FB54442D18⟩ then ⟨true, 1022, 0xFFFFFFFFFFFFF⟩
  else Double.tan x

end Double

/-- The function `main` on binary64 with `t` as the `tan` of the C library. -/
def main_binary64 (t : Double → Double) (PROJECT_NAME : String) (opts : List Char)
    (args : List String) : Outcome :=
  @main Double _ _ _ _ _ _ _ (Double.libm t) PROJECT_NAME opts args

/-! ## The printed equation and its reading -/

/-- The angle expression printed inside `tan(...)`: a number, followed by `°` in degrees mode,
then by `-π/2` or `-90°` when the subtract flag is set. -/
structure PrintedAngle (F : Type) where
  value : F
  degree_sign : Bool
  minus_pi_2 : Bool
  minus_90_degrees : Bool

/-- The slope coefficient printed before `*`: a bare number, or `tan(...)`. -/
inductive PrintedCoefficient (F : Type)
  | number (value : F)
  | tangent (angle : PrintedAngle F)

/-- The equation printed by `print_line`: `y=<y>`, or `y=` followed by an optional coefficient
with `*`, the term `(x<c>)` with a signed number `c` or a bare `x`, and an optional signed
number. -/
inductive PrintedLine (F : Type)
  | constant (y : F)
  | sloped (coefficient : Option (PrintedCoefficient F)) (x_offset : Option F)
      (y_offset : Option F)

/-- The text of a printed angle expression. -/
def PrintedAngle.render {F : Type} [CLibc F] (a : PrintedAngle F) : String :=
  printf_g false DIGITS a.value ++ (if a.degree_sign then "°" else "") ++
    (if a.minus_pi_2 then "-π/2" else "") ++ (if a.minus_90_degrees then "-90°" else "")

/-- The text of a printed coefficient. -/
def PrintedCoefficient.render {F : Type} [CLibc F] : PrintedCoefficient F → String
  | .number v => printf_g false DIGITS v
  | .tangent a => "tan(" ++ a.render ++ ")"

/-- The text of a printed equation, newline included. -/
def PrintedLine.render {F : Type} [CLibc F] : PrintedLine F → String
  | .constant y => "y=" ++ printf_g false DIGITS y ++ "\n"
  | .sloped c xo yo =>
    "y=" ++ (match c with | some c => c.render ++ "*" | none => "") ++
      (match xo with | some v => "(x" ++ printf_g true DIGITS v ++ ")" | none => "x") ++
      (match yo with | some v => printf_g true DIGITS v | none => "") ++ "\n"

/-- The angle in radians that a printed angle expression denotes: `°` means degrees, that is
a factor `M_PI / 180`; `-π/2` subtracts `M_PI / 2`, and `-90°` subtracts 90 degrees. -/
def PrintedAngle.denote {F : Type} [Sub F] [Mul F] [Div F] [CFloat F] [CMath F]
    (a : PrintedAngle F) : F :=
  let r := if a.degree_sign then a.value * M_PI / lit 180 else a.value
  let r := if a.minus_pi_2 then r - M_PI / lit 2 else r
  if a.minus_90_degrees then r - lit 90 * M_PI / lit 180 else r

/-- The number that a printed coefficient denotes: `tan(...)` means the tangent of the angle. -/
def PrintedCoefficient.denote {F : Type} [Sub F] [Mul F] [Div F] [CFloat F] [CMath F] :
    PrintedCoefficient F → F
  | .number v => v
  | .tangent a => tan a.denote

/-- The value at `x` of a printed equation read as an expression in `x`: an omitted
coefficient means 1, `(x<c>)` means `x + c`, an omitted number means nothing is added. -/
def PrintedLine.denote {F : Type} [Add F] [Sub F] [Mul F] [Div F] [CFloat F] [CMath F]
    (l : PrintedLine F) (x : F) : F :=
  match l with
  | .constant y => y
  | .sloped c xo yo =>
    let xt := match xo with | some v => x + v | none => x
    let p := (match c with | some c => c.denote | none => lit 1) * xt
    match yo with | some v => p + v | none => p

/-- The equation that `print_line(x, y, m, m_actual)` prints, as a `PrintedLine`: the same
tests in the same order as `print_line`, with each `printf` recorded as the value it prints. -/
def print_line_form {F : Type} [Neg F] [CFloat F] (mode : Mode) (subtract90 : Bool)
    (x y m m_actual : F) : PrintedLine F :=
  if CFloat.ne m_actual (lit 0) then
    .sloped
      (if CFloat.ne m_actual (lit 1) then
        some (if mode ≠ GRADIENT then
          .tangent ⟨m, decide (mode = DEGREES), subtract90 && decide (mode = RADIANS),
            subtract90 && decide (mode = DEGREES)⟩
        else .number m)
      else none)
      (if CFloat.ne x (lit 0) then some (-x) else none)
      (if CFloat.ne y (lit 0) then some y else none)
  else .constant y

/-! ## Stage lemmas -/

/-- The body of `parse_double_argument` with its local variables substituted. -/
theorem parse_double_argument_eq {F : Type} [CFloat F] [CLibc F] (out : String)
    (argv : List String) (arg_name : String) (arg_index : Nat) :
    parse_double_argument (F := F) out argv arg_name arg_index =
      if (strtod (F := F) (argv.getD arg_index "")).2 = 0 ∨
          (strtod (F := F) (argv.getD arg_index "")).2 < (argv.getD arg_index "").length ∨
          (fpclassify (strtod (F := F) (argv.getD arg_index "")).1 ≠ FP_NORMAL ∧
            fpclassify (strtod (F := F) (argv.getD arg_index "")).1 ≠ FP_ZERO) then
        .error (errx out 2
          (arg_name ++ ": " ++ argv.getD arg_index "" ++ ": not a valid floating point number"))
      else .ok ((strtod (F := F) (argv.getD arg_index "")).1, arg_index + 1) := rfl

/-- A failing `parse_double_argument` exits with status 2 and prints nothing. -/
theorem parse_double_argument_error {F : Type} [CFloat F] [CLibc F] (out : String)
    (argv : List String) (arg_name : String) (arg_index : Nat) (o : Outcome)
    (h : parse_double_argument (F := F) out argv arg_name arg_index = .error o) :
    o.status = 2 ∧ o.stdout = out := by
  rw [parse_double_argument_eq] at h
  split at h
  · cases h; exact ⟨rfl, rfl⟩
  · cases h

/-- A failing parse of the six tokens exits with status 2 and prints nothing. -/
theorem parse_lines_error {F : Type} [CFloat F] [CLibc F] (out : String)
    (argv : List String) (optind : Nat) (o : Outcome)
    (h : parse_lines (F := F) out argv optind = .error o) :
    o.status = 2 ∧ o.stdout = out := by
  unfold parse_lines at h
  simp only [bind, Except.bind, pure, Except.pure] at h
  repeat
    split at h
    · cases h; exact parse_double_argument_error _ _ _ _ _ (by assumption)
  cases h

/-- The two lines handed to slope resolution carry `gradient = gradient_input`: the six parsed
values, with `m1 = m1_` and `m2 = m2_`. -/
theorem parse_lines_gradient {F : Type} [CFloat F] [CLibc F] (out : String)
    (argv : List String) (optind : Nat) (lines : Line F × Line F)
    (h : parse_lines (F := F) out argv optind = .ok lines) :
    lines.1.gradient = lines.1.gradient_input ∧ lines.2.gradient = lines.2.gradient_input := by
  unfold parse_lines at h
  simp only [bind, Except.bind, pure, Except.pure] at h
  repeat
    split at h
    · cases h
  cases h
  exact ⟨rfl, rfl⟩

/-- The body of `solve` with its local variables substituted. -/
theorem solve_eq {F : Type} [Add F] [Sub F] [Mul F] [Div F] [CFloat F] (out : String)
    (lines : Line F × Line F) :
    solve out lines =
      match fpclassify (gradient lines.1.gradient lines.2.gradient) with
      | FP_NORMAL =>
        .ok (x_intersect lines.1.x lines.1.y lines.1.gradient lines.2.x lines.2.y lines.2.gradient,
          y_intersect lines.1.x lines.1.y lines.1.gradient lines.2.x lines.2.y lines.2.gradient)
      | FP_ZERO => .error (errx out 3 "Lines cannot be parallel")
      | _ => .error (errx out 3 "Error calculating intersection") := rfl

/-- A failing solver exits with status 3 and prints nothing. -/
theorem solve_error {F : Type} [Add F] [Sub F] [Mul F] [Div F] [CFloat F] (out : String)
    (lines : Line F × Line F) (o : Outcome) (h : solve out lines = .error o) :
    o.status = 3 ∧ o.stdout = out := by
  unfold solve at h
  simp only at h
  split at h
  · cases h
  · cases h; exact ⟨rfl, rfl⟩
  · cases h; exact ⟨rfl, rfl⟩

/-- Without `h` the option loop is the left fold of `option_step`. -/
theorem option_loop_no_help (PN out : String) :
    ∀ (opts : List Char) (st : Flags), 'h' ∉ opts →
      option_loop PN out opts st = .ok (opts.foldl option_step st) := by
  intro opts
  induction opts with
  | nil => intro st _; rfl
  | cons c rest ih =>
    intro st h
    have hc : c ≠ 'h' := fun e => h (by simp [e])
    have hr : 'h' ∉ rest := fun e => h (by simp [e])
    simp [option_loop, hc, ih _ hr]

/-- Once `invalid` is set, the remaining options change nothing. -/
theorem foldl_option_step_invalid (opts : List Char) (st : Flags) (h : st.invalid = true) :
    opts.foldl option_step st = st := by
  induction opts with
  | nil => rfl
  | cons c rest ih => simp [List.foldl, option_step, h, ih]

/-- What the option loop leaves behind, from a state that is still valid. -/
theorem foldl_option_step_spec (opts : List Char) :
    ∀ st : Flags, st.invalid = false →
      ((opts.foldl option_step st).invalid = true ↔
        ((∃ c ∈ opts, isKnownFlag c = false) ∨
          2 ≤ (opts.filter isModeFlag).length + (if st.mode = GRADIENT then 0 else 1))) ∧
      ((opts.foldl option_step st).invalid = false →
        ((opts.foldl option_step st).subtract90 = (st.subtract90 || opts.contains 's') ∧
         ((opts.foldl option_step st).mode = GRADIENT ↔
            (st.mode = GRADIENT ∧ (opts.filter isModeFlag).length = 0)))) := by
  induction opts with
  | nil =>
    intro st h
    refine ⟨?_, ?_⟩
    · simp [h]; split <;> simp
    · intro _; simp
  | cons c rest ih =>
    intro st h
    by_cases hs : c = 's'
    · subst hs
      have e : option_step st 's' = { st with subtract90 := true } := by
        simp [option_step, h]
      have := ih { st with subtract90 := true } h
      simp only [List.foldl_cons, e]
      simp [isKnownFlag, isModeFlag] at this ⊢
      exact this
    · by_cases hd : c = 'd'
      · subst hd
        by_cases hm : st.mode = GRADIENT
        · have e : option_step st 'd' = { st with mode := DEGREES } := by
            simp [option_step, h, hm]
          have := ih { st with mode := DEGREES } h
          simp only [List.foldl_cons, e]
          simp [isKnownFlag, isModeFlag, hm] at this ⊢
          refine ⟨?_, ?_⟩
          · rw [this.1]
          · intro h'; have := this.2 h'; simp [this]
        · have e : option_step st 'd' = { st with invalid := true } := by
            simp [option_step, h, hm]
          simp only [List.foldl_cons, e]
          rw [foldl_option_step_invalid _ _ rfl]
          simp [isModeFlag, hm]
      · by_cases hr : c = 'r'
        · subst hr
          by_cases hm : st.mode = GRADIENT
          · have e : option_step st 'r' = { st with mode := RADIANS } := by
              simp [option_step, h, hm]
            have := ih { st with mode := RADIANS } h
            simp only [List.foldl_cons, e]
            simp [isKnownFlag, isModeFlag, hm] at this ⊢
            refine ⟨?_, ?_⟩
            · rw [this.1]
            · intro h'; have := this.2 h'; simp [this]
          · have e : option_step st 'r' = { st with invalid := true } := by
              simp [option_step, h, hm]
            simp only [List.foldl_cons, e]
            rw [foldl_option_step_invalid _ _ rfl]
            simp [isModeFlag, hm]
        · have e : option_step st c = { st with invalid := true } := by
            simp [option_step, h, hs, hd, hr]
          simp only [List.foldl_cons, e]
          rw [foldl_option_step_invalid _ _ rfl]
          simp [isKnownFlag, hs, hd, hr]

/-- The usage checks pass exactly for six tokens, valid flags, and no `-s` in `GRADIENT` mode. -/
theorem check_usage_eq_ok (out : String) (st : Flags) (n : Nat) :
    check_usage out st n = .ok () ↔
      n = 6 ∧ st.invalid = false ∧ ¬ (st.mode = GRADIENT ∧ st.subtract90 = true) := by
  unfold check_usage
  by_cases h1 : n ≠ 6 ∨ st.invalid = true
  · rw [if_pos h1]
    constructor
    · intro h; cases h
    · rintro ⟨a, b, _⟩; rcases h1 with h1 | h1
      · exact absurd a h1
      · rw [b] at h1; cases h1
  · rw [if_neg h1]
    have h6 : n = 6 := by by_contra h; exact h1 (Or.inl h)
    have hi : st.invalid = false := by
      cases hv : st.invalid
      · rfl
      · exact absurd (Or.inr hv) h1
    by_cases h2 : st.mode = GRADIENT ∧ st.subtract90 = true
    · rw [if_pos h2]
      constructor
      · intro h; cases h
      · rintro ⟨_, _, c⟩; exact absurd h2 c
    · rw [if_neg h2]
      exact ⟨fun _ => ⟨h6, hi, h2⟩, fun _ => rfl⟩

/-- A failing usage check exits with status 1 and prints nothing. -/
theorem check_usage_error (out : String) (st : Flags) (n : Nat) (o : Outcome)
    (h : check_usage out st n = .error o) : o.status = 1 ∧ o.stdout = out := by
  unfold check_usage at h
  split at h
  · cases h; exact ⟨rfl, rfl⟩
  · split at h
    · cases h; exact ⟨rfl, rfl⟩
    · cases h

/-- A failing usage check is the outcome of the whole run. -/
theorem main_of_usage_error {F : Type} [Add F] [Sub F] [Mul F] [Div F] [Neg F] [CFloat F]
    [CLibc F] [CMath F] (PN : String) (opts : List Char) (args : List String) (st : Flags)
    (o : Outcome) (hloop : option_loop PN "" opts Flags.init = .ok st)
    (husage : check_usage "" st args.length = .error o) :
    main (F := F) PN opts args = o := by
  unfold main main_run
  simp only [bind, Except.bind, hloop, husage]

/-- The run after a front end that succeeded: the outcome is decided by the solver. -/
theorem main_of_front {F : Type} [Add F] [Sub F] [Mul F] [Div F] [Neg F] [CFloat F] [CLibc F]
    [CMath F] (PN : String) (opts : List Char) (args : List String) (st : Flags)
    (lines : Line F × Line F)
    (hloop : option_loop PN "" opts Flags.init = .ok st)
    (husage : check_usage "" st args.length = .ok ())
    (hparse : parse_lines (F := F) "" args 0 = .ok lines) :
    main (F := F) PN opts args =
      match solve "" (resolve_gradients st.mode st.subtract90 lines) with
      | .ok p =>
        ⟨0, print_result st.mode st.subtract90 "" (resolve_gradients st.mode st.subtract90 lines)
          p.1 p.2, ""⟩
      | .error o => o := by
  unfold main main_run
  simp only [bind, Except.bind, hloop, husage, hparse, pure, Except.pure]
  cases solve "" (resolve_gradients st.mode st.subtract90 lines) <;> rfl

/-- Without `-h`, the exit status is 1 exactly when the usage checks fail. -/
theorem main_status_one_iff {F : Type} [Add F] [Sub F] [Mul F] [Div F] [Neg F] [CFloat F]
    [CLibc F] [CMath F] (PN : String) (opts : List Char) (args : List String)
    (hh : 'h' ∉ opts) :
    (main (F := F) PN opts args).status = 1 ↔
      check_usage "" (opts.foldl option_step Flags.init) args.length ≠ .ok () := by
  have hloop := option_loop_no_help PN "" opts Flags.init hh
  cases hu : check_usage "" (opts.foldl option_step Flags.init) args.length with
  | error o =>
    have := check_usage_error _ _ _ _ hu
    have hm : main (F := F) PN opts args = o := by
      unfold main main_run
      simp only [bind, Except.bind, hloop, hu]
    simp [hm, this.1]
  | ok u =>
    cases u
    simp only [ne_eq, not_true_eq_false, iff_false]
    cases hp : parse_lines (F := F) "" args 0 with
    | error o =>
      have := parse_lines_error _ _ _ _ hp
      have hm : main (F := F) PN opts args = o := by
        unfold main main_run
        simp only [bind, Except.bind, hloop, hu, hp]
      rw [hm, this.1]; decide
    | ok lines =>
      rw [main_of_front PN opts args _ lines hloop hu hp]
      cases hs : solve "" (resolve_gradients (opts.foldl option_step Flags.init).mode
          (opts.foldl option_step Flags.init).subtract90 lines) with
      | error o =>
        have := solve_error _ _ _ hs
        simp only [this.1]; decide
      | ok p => simp

/-! ## Binary64 lemmas -/

namespace Double

/-- Unary minus negates the value. -/
theorem toRat_neg (x : Double) : (neg x).toRat = -x.toRat := by
  unfold neg toRat
  cases x.sign <;> simp

/-- Both zeros have value `0`. -/
theorem toRat_of_isZero (x : Double) (h : x.isZero = true) : x.toRat = 0 := by
  unfold isZero at h
  simp only [decide_eq_true_eq] at h
  unfold toRat
  simp only [h.1, h.2, if_true, Nat.zero_mul, Nat.cast_zero, zero_div, ite_self, neg_zero]

/-- An exact zero result is classified `FP_ZERO`. -/
theorem classify_ofRat_zero (s : Bool) : classify (ofRat s 0) = FP_ZERO := by
  simp [ofRat, zero, classify]

/-- On binary64, two finite values that compare equal (`==`, the negation of `!=`) have a
difference that `fpclassify` reports as `FP_ZERO`. -/
theorem classify_sub_of_eq (m1 m2 : Double) (hfin : m1.isInf = false)
    (heq : Double.ne m1 m2 = false) : classify (m1 - m2) = FP_ZERO := by
  unfold Double.ne at heq
  have hnan : ¬ (m1.isNaN = true ∨ m2.isNaN = true) := by
    intro h; rw [if_pos h] at heq; cases heq
  rw [if_neg hnan] at heq
  have h1 : m1.isNaN = false := by
    cases h : m1.isNaN
    · rfl
    · exact absurd (Or.inl h) hnan
  have h2 : m2.isNaN = false := by
    cases h : m2.isNaN
    · rfl
    · exact absurd (Or.inr h) hnan
  have hn2 : (neg m2).isNaN = false := h2
  show classify (add m1 (neg m2)) = FP_ZERO
  by_cases hz : m1.isZero = true ∧ m2.isZero = true
  · have hi2 : (neg m2).isInf = false := by
      have := hz.2
      unfold isZero at this
      simp only [decide_eq_true_eq] at this
      simp [isInf, neg, this.1]
    have hsum : m1.toRat + (neg m2).toRat = 0 := by
      rw [toRat_neg, toRat_of_isZero _ hz.1, toRat_of_isZero _ hz.2]; simp
    unfold add
    simp only [h1, hn2, hfin, hi2, hsum]
    simp [classify_ofRat_zero]
  · rw [if_neg hz] at heq
    have e : m1 = m2 := by
      by_contra hne
      simp [hne] at heq
    subst e
    have hi2 : (neg m1).isInf = false := hfin
    have hsum : m1.toRat + (neg m1).toRat = 0 := by rw [toRat_neg]; simp
    unfold add
    simp only [h1, hn2, hfin, hi2, hsum]
    simp [classify_ofRat_zero]

end Double

/-! ## C1: the computed point lies on both lines -/

/-- Theorem C1: in exact arithmetic (any field), for all offsets and gradients `m1 ≠ m2`, the
point `(x_intersect, y_intersect)` computed by the solver lies on both lines. -/
theorem C1_solution_on_both_lines {F : Type} [Field F] (x1 y1 m1 x2 y2 m2 : F) (h : m1 ≠ m2) :
    y_intersect x1 y1 m1 x2 y2 m2 = m1 * (x_intersect x1 y1 m1 x2 y2 m2 - x1) + y1 ∧
    y_intersect x1 y1 m1 x2 y2 m2 = m2 * (x_intersect x1 y1 m1 x2 y2 m2 - x2) + y2 := by
  have hd : m1 - m2 ≠ 0 := sub_ne_zero.mpr h
  refine ⟨rfl, ?_⟩
  unfold y_intersect x_intersect gradient
  field_simp
  ring

/-- Witness for C1 at `x1 = 0, y1 = 0, m1 = 1, x2 = 1, y2 = 0, m2 = 2` over `ℚ`. -/
theorem C1_solution_on_both_lines_witness :
    (1 : ℚ) ≠ 2 ∧
    (y_intersect (0 : ℚ) 0 1 1 0 2 = 1 * (x_intersect (0 : ℚ) 0 1 1 0 2 - 0) + 0 ∧
     y_intersect (0 : ℚ) 0 1 1 0 2 = 2 * (x_intersect (0 : ℚ) 0 1 1 0 2 - 1) + 0) :=
  ⟨by decide, C1_solution_on_both_lines 0 0 1 1 0 2 (by decide)⟩

/-! ## C2: the worked example -/

/-- Counterexample to C2 as stated: on the inputs `0 0 1 1 0 2` the point is not `(1, 1)`,
neither in exact arithmetic nor in the binary64 run, whose standard output is not the text
with the final lines `x = 1`, `y = 1`, `(1, 1)`. -/
theorem C2_counterexample :
    ¬ (x_intersect (0 : ℚ) 0 1 1 0 2 = 1 ∧ y_intersect (0 : ℚ) 0 1 1 0 2 = 1) ∧
    (main (F := Double) "linear-intersection" [] ["0", "0", "1", "1", "0", "2"]).stdout ≠
      "y=x\ny=2*(x-1)\nx = 1\ny = 1\n(1, 1)\n" := by
  decide!

/-- Theorem C2 (amended): in gradient mode (no flags) the inputs `0 0 1 1 0 2`, the lines
`y = x` and `y = 2(x - 1)`, make the run succeed with the intersection `x = 2`, `y = 2`: the
binary64 run exits with status 0 after printing both equations and the point `(2, 2)`, and in
exact arithmetic the solver's point is `(2, 2)`. -/
theorem C2_example_intersection :
    main (F := Double) "linear-intersection" [] ["0", "0", "1", "1", "0", "2"] =
      ⟨0, "y=x\ny=2*(x-1)\nx = 2\ny = 2\n(2, 2)\n", ""⟩ ∧
    solve (F := ℚ) "" (⟨0, 0, 1, 1⟩, ⟨1, 0, 2, 2⟩) = .ok (2, 2) := by
  decide!

/-! ## C3: parallel lines -/

/-- Theorem C3: whenever a run reaches the solver with resolved gradients whose difference is
classified `FP_ZERO` (a zero of either sign), it ends with exit status 3 and the message
`Lines cannot be parallel`, with nothing on standard output, whatever the offsets are; and
equal gradients do have such a difference, both for finite binary64 values with `m1 == m2` and
in exact arithmetic. -/
theorem C3_parallel_lines :
    (∀ (F : Type) [Add F] [Sub F] [Mul F] [Div F] [Neg F] [CFloat F] [CLibc F] [CMath F]
      (PN : String) (opts : List Char) (args : List String) (st : Flags)
      (lines : Line F × Line F),
      option_loop PN "" opts Flags.init = .ok st →
      check_usage "" st args.length = .ok () →
      parse_lines (F := F) "" args 0 = .ok lines →
      fpclassify (gradient (resolve_gradients st.mode st.subtract90 lines).1.gradient
        (resolve_gradients st.mode st.subtract90 lines).2.gradient) = FP_ZERO →
      main (F := F) PN opts args = ⟨3, "", "Lines cannot be parallel"⟩) ∧
    (∀ m1 m2 : Double, m1.isInf = false → CFloat.ne m1 m2 = false →
      fpclassify (gradient m1 m2) = FP_ZERO) ∧
    (∀ m1 m2 : ℚ, m1 = m2 → fpclassify (gradient m1 m2) = FP_ZERO) := by
  refine ⟨?_, ?_, ?_⟩
  · intro F _ _ _ _ _ _ _ _ PN opts args st lines hloop husage hparse hz
    rw [main_of_front PN opts args st lines hloop husage hparse, solve_eq, hz]
    rfl
  · intro m1 m2 hfin heq
    exact Double.classify_sub_of_eq m1 m2 hfin heq
  · intro m1 m2 h
    subst h
    simp [gradient, fpclassify]

/-- Witness for C3: the binary64 run on `0 0 1 5 7 1` (two lines of gradient 1 through
different points). -/
theorem C3_parallel_lines_witness :
    option_loop "linear-intersection" "" [] Flags.init = .ok Flags.init ∧
    check_usage "" Flags.init 6 = .ok () ∧
    parse_lines (F := Double) "" ["0", "0", "1", "5", "7", "1"] 0 =
      .ok (⟨lit 0, lit 0, lit 1, lit 1⟩, ⟨lit 5, lit 7, lit 1, lit 1⟩) ∧
    main (F := Double) "linear-intersection" [] ["0", "0", "1", "5", "7", "1"] =
      ⟨3, "", "Lines cannot be parallel"⟩ :=
  ⟨rfl, rfl, by decide!,
    C3_parallel_lines.1 Double "linear-intersection" [] ["0", "0", "1", "5", "7", "1"] Flags.init
      (⟨lit 0, lit 0, lit 1, lit 1⟩, ⟨lit 5, lit 7, lit 1, lit 1⟩) rfl rfl (by decide!)
      (by decide!)⟩

/-! ## C4: classification of the gradient difference -/

/-- Counterexample to C4 as stated: the binary64 run on
`0 0 2.2250738585072014e-308 0 0 2.2250738585072019e-308` in gradient mode ends with
`Error calculating intersection` and exit status 3, although the gradient difference is
finite and nonzero (it is the subnormal `-2^-1074`, neither NaN nor infinite nor zero). -/
theorem C4_counterexample :
    main (F := Double) "linear-intersection" []
      ["0", "0", "2.2250738585072014e-308", "0", "0", "2.2250738585072019e-308"] =
      ⟨3, "", "Error calculating intersection"⟩ ∧
    gradient (strtod (F := Double) "2.2250738585072014e-308").1
      (strtod (F := Double) "2.2250738585072019e-308").1 = (⟨true, 0, 1⟩ : Double) ∧
    Double.isNaN ⟨true, 0, 1⟩ = false ∧ Double.isInf ⟨true, 0, 1⟩ = false ∧
    Double.isZero ⟨true, 0, 1⟩ = false := by
  decide!

/-- Theorem C4 (amended): for a run that reaches the solver, with `g` the difference of the
resolved gradients, the classification is exhaustive in three cases: the run computes and
prints an intersection (exit status 0) if and only if `fpclassify g` is `FP_NORMAL`; it fails
with `Lines cannot be parallel` if and only if it is `FP_ZERO`; and it fails with
`Error calculating intersection` (exit status 3) if and only if it is neither, that is
infinite, NaN or subnormal. -/
theorem C4_gradient_classification {F : Type} [Add F] [Sub F] [Mul F] [Div F] [Neg F]
    [CFloat F] [CLibc F] [CMath F] (PN : String) (opts : List Char) (args : List String)
    (st : Flags) (lines : Line F × Line F)
    (hloop : option_loop PN "" opts Flags.init = .ok st)
    (husage : check_usage "" st args.length = .ok ())
    (hparse : parse_lines (F := F) "" args 0 = .ok lines) :
    (main (F := F) PN opts args =
        ⟨0, print_result st.mode st.subtract90 ""
          (resolve_gradients st.mode st.subtract90 lines)
          (x_intersect (resolve_gradients st.mode st.subtract90 lines).1.x
            (resolve_gradients st.mode st.subtract90 lines).1.y
            (resolve_gradients st.mode st.subtract90 lines).1.gradient
            (resolve_gradients st.mode st.subtract90 lines).2.x
            (resolve_gradients st.mode st.subtract90 lines).2.y
            (resolve_gradients st.mode st.subtract90 lines).2.gradient)
          (y_intersect (resolve_gradients st.mode st.subtract90 lines).1.x
            (resolve_gradients st.mode st.subtract90 lines).1.y
            (resolve_gradients st.mode st.subtract90 lines).1.gradient
            (resolve_gradients st.mode st.subtract90 lines).2.x
            (resolve_gradients st.mode st.subtract90 lines).2.y
            (resolve_gradients st.mode st.subtract90 lines).2.gradient), ""⟩ ↔
      fpclassify (gradient (resolve_gradients st.mode st.subtract90 lines).1.gradient
        (resolve_gradients st.mode st.subtract90 lines).2.gradient) = FP_NORMAL) ∧
    (main (F := F) PN opts args = ⟨3, "", "Lines cannot be parallel"⟩ ↔
      fpclassify (gradient (resolve_gradients st.mode st.subtract90 lines).1.gradient
        (resolve_gradients st.mode st.subtract90 lines).2.gradient) = FP_ZERO) ∧
    (main (F := F) PN opts args = ⟨3, "", "Error calculating intersection"⟩ ↔
      (fpclassify (gradient (resolve_gradients st.mode st.subtract90 lines).1.gradient
          (resolve_gradients st.mode st.subtract90 lines).2.gradient) = FP_INFINITE ∨
       fpclassify (gradient (resolve_gradients st.mode st.subtract90 lines).1.gradient
          (resolve_gradients st.mode st.subtract90 lines).2.gradient) = FP_NAN ∨
       fpclassify (gradient (resolve_gradients st.mode st.subtract90 lines).1.gradient
          (resolve_gradients st.mode st.subtract90 lines).2.gradient) = FP_SUBNORMAL)) := by
  rw [main_of_front PN opts args st lines hloop husage hparse, solve_eq]
  generalize resolve_gradients st.mode st.subtract90 lines = rl
  cases hc : fpclassify (gradient rl.1.gradient rl.2.gradient) <;>
    simp [errx]

/-- Witness for C4: the binary64 run on `0 0 1 1 0 2`, whose gradient difference `-1` is
normal. -/
theorem C4_gradient_classification_witness :
    option_loop "linear-intersection" "" [] Flags.init = .ok Flags.init ∧
    check_usage "" Flags.init 6 = .ok () ∧
    parse_lines (F := Double) "" ["0", "0", "1", "1", "0", "2"] 0 =
      .ok (⟨lit 0, lit 0, lit 1, lit 1⟩, ⟨lit 1, lit 0, lit 2, lit 2⟩) ∧
    fpclassify (gradient (lit 1 : Double) (lit 2)) = FP_NORMAL ∧
    main (F := Double) "linear-intersection" [] ["0", "0", "1", "1", "0", "2"] =
      ⟨0, "y=x\ny=2*(x-1)\nx = 2\ny = 2\n(2, 2)\n", ""⟩ :=
  ⟨rfl, rfl, by decide!, by decide!,
    ((C4_gradient_classification (F := Double) "linear-intersection" []
      ["0", "0", "1", "1", "0", "2"] Flags.init
      (⟨lit 0, lit 0, lit 1, lit 1⟩, ⟨lit 1, lit 0, lit 2, lit 2⟩) rfl rfl (by decide!)).1.mpr
      (by decide!)).trans (by decide!)⟩

/-! ## C5: token validation -/

/-- Counterexample to C5 as stated: the token `1e-310` is converted completely (six characters,
none left over) to a value that is neither infinite nor NaN, and `parse_double_argument`
still rejects it with exit status 2, because the value is subnormal. -/
theorem C5_counterexample :
    parse_double_argument (F := Double) "" ["1e-310"] "x1" 0 =
      .error ⟨2, "", "x1: 1e-310: not a valid floating point number"⟩ ∧
    (strtod (F := Double) "1e-310").2 = 6 ∧ "1e-310".length = 6 ∧
    Double.isInf (strtod (F := Double) "1e-310").1 = false ∧
    Double.isNaN (strtod (F := Double) "1e-310").1 = false ∧
    fpclassify (strtod (F := Double) "1e-310").1 = FP_SUBNORMAL := by
  decide!

/-- Theorem C5 (amended): `parse_double_argument` accepts a token (returns its value and the
argument index advanced by exactly one) if and only if `strtod` converts at least one
character, leaves no character over, and the value is classified `FP_NORMAL` or `FP_ZERO`
(so infinities, NaN and also subnormal values are rejected); in every other case it ends the
run with exit status 2 and returns nothing. -/
theorem C5_parse_accepts_iff {F : Type} [CFloat F] [CLibc F] (out : String)
    (argv : List String) (arg_name : String) (arg_index : Nat) :
    (parse_double_argument (F := F) out argv arg_name arg_index =
        .ok ((strtod (F := F) (argv.getD arg_index "")).1, arg_index + 1) ↔
      ((strtod (F := F) (argv.getD arg_index "")).2 ≠ 0 ∧
        ¬ (strtod (F := F) (argv.getD arg_index "")).2 < (argv.getD arg_index "").length ∧
        (fpclassify (strtod (F := F) (argv.getD arg_index "")).1 = FP_NORMAL ∨
          fpclassify (strtod (F := F) (argv.getD arg_index "")).1 = FP_ZERO))) ∧
    (parse_double_argument (F := F) out argv arg_name arg_index =
        .error ⟨2, out,
          arg_name ++ ": " ++ argv.getD arg_index "" ++ ": not a valid floating point number"⟩ ↔
      ¬ ((strtod (F := F) (argv.getD arg_index "")).2 ≠ 0 ∧
        ¬ (strtod (F := F) (argv.getD arg_index "")).2 < (argv.getD arg_index "").length ∧
        (fpclassify (strtod (F := F) (argv.getD arg_index "")).1 = FP_NORMAL ∨
          fpclassify (strtod (F := F) (argv.getD arg_index "")).1 = FP_ZERO))) := by
  rw [parse_double_argument_eq]
  generalize strtod (F := F) (argv.getD arg_index "") = r
  by_cases h : r.2 = 0 ∨ r.2 < (argv.getD arg_index "").length ∨
      (fpclassify r.1 ≠ FP_NORMAL ∧ fpclassify r.1 ≠ FP_ZERO)
  · rw [if_pos h]
    have hn : ¬ (r.2 ≠ 0 ∧ ¬ r.2 < (argv.getD arg_index "").length ∧
        (fpclassify r.1 = FP_NORMAL ∨ fpclassify r.1 = FP_ZERO)) := by
      rintro ⟨a, b, c⟩
      rcases h with h | h | h
      · exact a h
      · exact b h
      · rcases c with c | c
        · exact h.1 c
        · exact h.2 c
    exact ⟨⟨fun h' => (by cases h'), fun h' => absurd h' hn⟩, ⟨fun _ => hn, fun _ => rfl⟩⟩
  · rw [if_neg h]
    have hp : r.2 ≠ 0 ∧ ¬ r.2 < (argv.getD arg_index "").length ∧
        (fpclassify r.1 = FP_NORMAL ∨ fpclassify r.1 = FP_ZERO) := by
      refine ⟨fun a => h (Or.inl a), fun b => h (Or.inr (Or.inl b)), ?_⟩
      by_contra c
      exact h (Or.inr (Or.inr ⟨fun d => c (Or.inl d), fun d => c (Or.inr d)⟩))
    exact ⟨⟨fun _ => hp, fun _ => rfl⟩, ⟨fun h' => (by cases h'), fun h' => absurd hp h'⟩⟩

/-! ## C6: usage errors -/

/-- Theorem C6: without `-h`, the run ends with exit status 1 exactly when the number of
positional tokens is not six, or an unrecognised option occurs, or two angle-mode flags occur
(the second one after the mode has been set), or `-s` occurs with no angle-mode flag; the
conditions are about membership and counts only, so the order of `-s` and the mode flag is
irrelevant. -/
theorem C6_usage_error_iff {F : Type} [Add F] [Sub F] [Mul F] [Div F] [Neg F] [CFloat F]
    [CLibc F] [CMath F] (PN : String) (opts : List Char) (args : List String)
    (hh : 'h' ∉ opts) :
    (main (F := F) PN opts args).status = 1 ↔
      (args.length ≠ 6 ∨ (∃ c ∈ opts, isKnownFlag c = false) ∨
        2 ≤ (opts.filter isModeFlag).length ∨
        ('s' ∈ opts ∧ (opts.filter isModeFlag).length = 0)) := by
  rw [main_status_one_iff PN opts args hh, ne_eq, check_usage_eq_ok]
  have hspec := foldl_option_step_spec opts Flags.init rfl
  have e0 : (if Flags.init.mode = GRADIENT then 0 else 1) = 0 := rfl
  have e1 : Flags.init.subtract90 = false := rfl
  have e2 : Flags.init.mode = GRADIENT := rfl
  rw [e0, e1, e2] at hspec
  generalize opts.foldl option_step Flags.init = r at hspec ⊢
  obtain ⟨h1, h2⟩ := hspec
  simp only [Nat.add_zero, Bool.false_or, true_and] at h1 h2
  cases hv : r.invalid
  · have h2 := h2 hv
    rw [hv] at h1
    simp only [Bool.false_eq_true, false_iff, not_or] at h1
    rw [h2.1, h2.2]
    constructor
    · intro h
      by_cases h6 : args.length = 6
      · right; right; right
        by_contra hc
        exact h ⟨h6, rfl, fun x => hc ⟨by simpa using x.2, x.1⟩⟩
      · exact Or.inl h6
    · rintro (h | h | h | h) ⟨h6, _, hn⟩
      · exact h h6
      · exact h1.1 h
      · exact h1.2 h
      · exact hn ⟨h.2, by simpa using h.1⟩
  · have h1 := h1.mp hv
    constructor
    · intro _
      rcases h1 with h1 | h1
      · exact Or.inr (Or.inl h1)
      · exact Or.inr (Or.inr (Or.inl h1))
    · rintro _ ⟨_, h, _⟩; cases h

/-- Witness for C6: the binary64 run with the single option `-s` and six tokens. -/
theorem C6_usage_error_iff_witness :
    'h' ∉ ['s'] ∧
    ((main (F := Double) "linear-intersection" ['s'] ["0", "0", "1", "1", "0", "2"]).status = 1 ↔
      (["0", "0", "1", "1", "0", "2"].length ≠ 6 ∨ (∃ c ∈ ['s'], isKnownFlag c = false) ∨
        2 ≤ (['s'].filter isModeFlag).length ∨
        ('s' ∈ ['s'] ∧ (['s'].filter isModeFlag).length = 0))) :=
  ⟨by decide,
    C6_usage_error_iff "linear-intersection" ['s'] ["0", "0", "1", "1", "0", "2"] (by decide)⟩

/-! ## C7: the subtract flag without an angle mode -/

/-- Theorem C7: with `-s` among the options, none of `-d`, `-r`, `-h`, and exactly six
positional tokens, the run ends with exit status 1 (so not 2) and empty standard output, and
the outcome is the same for every other choice of six tokens, valid numbers or not, and for
every `strtod`: no token is parsed before the usage error. -/
theorem C7_subtract_requires_angle_mode {F : Type} [Add F] [Sub F] [Mul F] [Div F] [Neg F]
    [CFloat F] [CLibc F] [CMath F] (PN : String) (opts : List Char) (args args' : List String)
    (hs : 's' ∈ opts) (hd : 'd' ∉ opts) (hr : 'r' ∉ opts) (hh : 'h' ∉ opts)
    (hlen : args.length = 6) (hlen' : args'.length = 6) :
    (main (F := F) PN opts args).status = 1 ∧ (main (F := F) PN opts args).status ≠ 2 ∧
    (main (F := F) PN opts args).stdout = "" ∧
    main (F := F) PN opts args' = main (F := F) PN opts args := by
  have hloop := option_loop_no_help PN "" opts Flags.init hh
  have hcount : (opts.filter isModeFlag).length = 0 := by
    rw [List.length_eq_zero, List.filter_eq_nil_iff]
    intro c hc
    have h1 : c ≠ 'd' := fun e => hd (e ▸ hc)
    have h2 : c ≠ 'r' := fun e => hr (e ▸ hc)
    simp [isModeFlag, h1, h2]
  have hspec := foldl_option_step_spec opts Flags.init rfl
  have hnot : check_usage "" (opts.foldl option_step Flags.init) 6 ≠ .ok () := by
    rw [ne_eq, check_usage_eq_ok]
    rintro ⟨_, hi, hn⟩
    have h2 := hspec.2 hi
    apply hn
    refine ⟨h2.2.mpr ⟨rfl, hcount⟩, ?_⟩
    rw [h2.1]
    simp [hs]
  cases hu : check_usage "" (opts.foldl option_step Flags.init) 6 with
  | ok u => cases u; exact absurd hu hnot
  | error o =>
    have ho := check_usage_error _ _ _ _ hu
    have hm : main (F := F) PN opts args = o :=
      main_of_usage_error PN opts args _ o hloop (by rw [hlen]; exact hu)
    have hm' : main (F := F) PN opts args' = o :=
      main_of_usage_error PN opts args' _ o hloop (by rw [hlen']; exact hu)
    rw [hm, hm', ho.1, ho.2]
    exact ⟨rfl, by decide, rfl, rfl⟩

/-- Witness for C7: binary64 runs with the option `-s` alone, once on six numbers and once on
six tokens that are not numbers. -/
theorem C7_subtract_requires_angle_mode_witness :
    ('s' ∈ ['s'] ∧ 'd' ∉ ['s'] ∧ 'r' ∉ ['s'] ∧ 'h' ∉ ['s']) ∧
    ((main (F := Double) "linear-intersection" ['s'] ["0", "0", "1", "1", "0", "2"]).status = 1 ∧
     (main (F := Double) "linear-intersection" ['s'] ["0", "0", "1", "1", "0", "2"]).status ≠ 2 ∧
     (main (F := Double) "linear-intersection" ['s'] ["0", "0", "1", "1", "0", "2"]).stdout = "" ∧
     main (F := Double) "linear-intersection" ['s'] ["a", "b", "c", "d", "e", "f"] =
       main (F := Double) "linear-intersection" ['s'] ["0", "0", "1", "1", "0", "2"]) :=
  ⟨by decide,
    C7_subtract_requires_angle_mode "linear-intersection" ['s'] ["0", "0", "1", "1", "0", "2"]
      ["a", "b", "c", "d", "e", "f"] (by decide) (by decide) (by decide) (by decide) rfl rfl⟩

/-! ## C8: slope resolution -/

/-- Theorem C8: slope resolution of the two lines built from the inputs `s1`, `s2` (their
`gradient` starts as a copy of `gradient_input`).  In `GRADIENT` mode the lines are unchanged;
in `RADIANS` mode the gradient becomes `tan s`, or `tan (s - M_PI_2)` with the subtract flag; in
`DEGREES` mode it becomes `tan (s * M_PI / 180)`, or `tan (s * M_PI / 180 - M_PI_2)` with the
flag, which is the `RADIANS` resolution of `s * M_PI / 180`.  In every mode the offsets and
`gradient_input` are kept. -/
theorem C8_slope_resolution {F : Type} [Sub F] [Mul F] [Div F] [CFloat F] [CMath F]
    (subtract90 : Bool) (x1 y1 s1 x2 y2 s2 : F) :
    resolve_gradients GRADIENT subtract90 (⟨x1, y1, s1, s1⟩, ⟨x2, y2, s2, s2⟩) =
      (⟨x1, y1, s1, s1⟩, ⟨x2, y2, s2, s2⟩) ∧
    resolve_gradients RADIANS false (⟨x1, y1, s1, s1⟩, ⟨x2, y2, s2, s2⟩) =
      (⟨x1, y1, s1, tan s1⟩, ⟨x2, y2, s2, tan s2⟩) ∧
    resolve_gradients RADIANS true (⟨x1, y1, s1, s1⟩, ⟨x2, y2, s2, s2⟩) =
      (⟨x1, y1, s1, tan (s1 - M_PI_2)⟩, ⟨x2, y2, s2, tan (s2 - M_PI_2)⟩) ∧
    resolve_gradients DEGREES false (⟨x1, y1, s1, s1⟩, ⟨x2, y2, s2, s2⟩) =
      (⟨x1, y1, s1, tan (s1 * M_PI / lit 180)⟩, ⟨x2, y2, s2, tan (s2 * M_PI / lit 180)⟩) ∧
    resolve_gradients DEGREES true (⟨x1, y1, s1, s1⟩, ⟨x2, y2, s2, s2⟩) =
      (⟨x1, y1, s1, tan (s1 * M_PI / lit 180 - M_PI_2)⟩,
       ⟨x2, y2, s2, tan (s2 * M_PI / lit 180 - M_PI_2)⟩) ∧
    resolve_gradients DEGREES subtract90 (⟨x1, y1, s1, s1⟩, ⟨x2, y2, s2, s2⟩) =
      resolve_gradients RADIANS subtract90
        (⟨x1, y1, s1, s1 * M_PI / lit 180⟩, ⟨x2, y2, s2, s2 * M_PI / lit 180⟩) := by
  refine ⟨rfl, rfl, rfl, rfl, rfl, rfl⟩

/-! ## C9: printed precision -/

/-- Evaluation for C9 at the failing input (`0 0.30000000000000004 0 0 0 1`, gradient mode):
`DIGITS` is 16, one less than `DBL_DECIMAL_DIG = 17`; the token `0.30000000000000004` is
accepted as the double `0x3FD3333333333334`; the run prints it as `0.3`; and `0.3` parses to
the different double `0x3FD3333333333333`.  With 17 significant digits the text would be
`0.30000000000000004`, which parses back to the same double. -/
theorem C9_roundtrip_lost :
    DIGITS = 16 ∧ DBL_DECIMAL_DIG = 17 ∧
    parse_double_argument (F := Double) "" ["0.30000000000000004"] "y1" 0 =
      .ok (⟨false, 1021, 0x3333333333334⟩, 1) ∧
    main (F := Double) "linear-intersection" [] ["0", "0.30000000000000004", "0", "0", "0", "1"] =
      ⟨0, "y=0.3\ny=x\nx = 0.3\ny = 0.3\n(0.3, 0.3)\n", ""⟩ ∧
    printf_g false DIGITS (⟨false, 1021, 0x3333333333334⟩ : Double) = "0.3" ∧
    strtod (F := Double) "0.3" = (⟨false, 1021, 0x3333333333333⟩, 3) ∧
    printf_g false DBL_DECIMAL_DIG (⟨false, 1021, 0x3333333333334⟩ : Double) =
      "0.30000000000000004" ∧
    strtod (F := Double) "0.30000000000000004" = (⟨false, 1021, 0x3333333333334⟩, 19) := by
  decide!

/-! ## C10: the format of `print_line` -/

/-- Theorem C10: `print_line` emits `y=<y1>` and a newline when `m == 0`; otherwise `y=`, then
the slope coefficient followed by `*` exactly when `m != 1`, then `(x<-x1, signed>)` when
`x1 != 0` and `x` when `x1 == 0`, then `y1` with an explicit sign exactly when `y1 != 0`, then
a newline.  The coefficient is `spec_slope_coefficient`: the raw `m_input` in `GRADIENT` mode,
and `tan(`, `m_input`, `°` in `DEGREES` mode, `-90°` / `-π/2` under the subtract flag, `)` in
the angle modes. -/
theorem C10_print_line_format {F : Type} [Neg F] [CFloat F] [CLibc F] (mode : Mode)
    (subtract90 : Bool) (x1 y1 m_input m : F) :
    (CFloat.ne m (lit 0) = false →
      print_line mode subtract90 x1 y1 m_input m = "y=" ++ printf_g false DIGITS y1 ++ "\n") ∧
    (CFloat.ne m (lit 0) = true →
      print_line mode subtract90 x1 y1 m_input m =
        "y=" ++
        (if CFloat.ne m (lit 1) = true then spec_slope_coefficient mode subtract90 m_input ++ "*"
          else "") ++
        (if CFloat.ne x1 (lit 0) = true then "(x" ++ printf_g true DIGITS (-x1) ++ ")" else "x") ++
        (if CFloat.ne y1 (lit 0) = true then printf_g true DIGITS y1 else "") ++
        "\n") := by
  constructor
  · intro h
    simp [print_line, h]
  · intro h
    cases hc : CFloat.ne m (lit 1) <;> cases mode <;> cases subtract90 <;>
      simp [print_line, h, hc, spec_slope_coefficient, String.append_assoc]

/-- Witness for C10: the second line of the worked example, `x1 = 1`, `y1 = 0`, gradient 2 in
`GRADIENT` mode, printed as `y=2*(x-1)`. -/
theorem C10_print_line_format_witness :
    CFloat.ne (lit 2 : Double) (lit 0) = true ∧
    print_line GRADIENT false (lit 1 : Double) (lit 0) (lit 2) (lit 2) = "y=2*(x-1)\n" :=
  ⟨by decide!,
    ((C10_print_line_format GRADIENT false (lit 1 : Double) (lit 0) (lit 2) (lit 2)).2
      (by decide!)).trans (by decide!)⟩

/-- With `h` among the options the loop ends the run: status 0 and the help text after what
was already printed. -/
theorem option_loop_help (PN out : String) :
    ∀ (opts : List Char) (st : Flags), 'h' ∈ opts →
      option_loop PN out opts st = .error ⟨0, out ++ help_text PN, ""⟩ := by
  intro opts
  induction opts with
  | nil => intro st h; cases h
  | cons c rest ih =>
    intro st h
    by_cases hc : c = 'h'
    · simp [option_loop, hc]
    · have hr : 'h' ∈ rest := by
        rcases List.mem_cons.mp h with h | h
        · exact absurd h.symm hc
        · exact h
      simp [option_loop, hc, ih _ hr]

/-- Theorem C12: whenever `-h` occurs among the parsed options, the run exits with status 0
and its standard output is exactly the help text, whatever the other options (before or after
it, recognised or not) and whatever the positional tokens (any number, numbers or not), for
every C library: no usage check is made, no token is parsed, no intersection is computed. -/
theorem C12_help_short_circuits {F : Type} [Add F] [Sub F] [Mul F] [Div F] [Neg F] [CFloat F]
    [CLibc F] [CMath F] (PN : String) (opts : List Char) (args : List String)
    (hh : 'h' ∈ opts) :
    main (F := F) PN opts args = ⟨0, help_text PN, ""⟩ := by
  unfold main main_run
  simp only [bind, Except.bind, option_loop_help PN "" opts Flags.init hh]
  simp

/-- Witness for C12: `-h` after an unrecognised option and two conflicting mode flags, with
three tokens that are not numbers. -/
theorem C12_help_short_circuits_witness :
    'h' ∈ ['?', 'd', 'r', 'h', 's'] ∧
    main (F := Double) "linear-intersection" ['?', 'd', 'r', 'h', 's'] ["a", "b", "c"] =
      ⟨0, help_text "linear-intersection", ""⟩ :=
  ⟨by decide,
    C12_help_short_circuits "linear-intersection" ['?', 'd', 'r', 'h', 's'] ["a", "b", "c"]
      (by decide)⟩

/-- Theorem C13: in exact arithmetic (any field), when both lines are given with the same offset
point `(x0, y0)` and gradients `m1 ≠ m2`, the solver returns exactly `(x0, y0)`; in particular
the inputs `0 0 1 0 0 -1` give `(0, 0)`, also in the binary64 run in gradient mode, which
prints `x = 0`, `y = 0`, `(0, 0)`. -/
theorem C13_common_offset_point {F : Type} [Field F] (x0 y0 m1 m2 : F) (h : m1 ≠ m2) :
    (x_intersect x0 y0 m1 x0 y0 m2 = x0 ∧ y_intersect x0 y0 m1 x0 y0 m2 = y0) ∧
    (x_intersect (0 : ℚ) 0 1 0 0 (-1) = 0 ∧ y_intersect (0 : ℚ) 0 1 0 0 (-1) = 0) ∧
    main (F := Double) "linear-intersection" [] ["0", "0", "1", "0", "0", "-1"] =
      ⟨0, "y=x\ny=-1*x\nx = 0\ny = 0\n(0, 0)\n", ""⟩ := by
  have hd : m1 - m2 ≠ 0 := sub_ne_zero.mpr h
  have hx : x_intersect x0 y0 m1 x0 y0 m2 = x0 := by
    unfold x_intersect gradient
    field_simp
    ring
  refine ⟨⟨hx, ?_⟩, by decide!, by decide!⟩
  unfold y_intersect
  rw [hx]
  ring

/-- Witness for C13 at the common point `(3, 4)` with gradients `1` and `-2` over `ℚ`. -/
theorem C13_common_offset_point_witness :
    (1 : ℚ) ≠ -2 ∧ x_intersect (3 : ℚ) 4 1 3 4 (-2) = 3 ∧ y_intersect (3 : ℚ) 4 1 3 4 (-2) = 4 :=
  ⟨by decide, (C13_common_offset_point (3 : ℚ) 4 1 (-2) (by decide)).1⟩

/-- Theorem C18: in exact arithmetic (any field), for all offsets and gradients `m1 ≠ m2`,
solving with the two lines swapped returns the same point, although `y_intersect` is computed
from the first line given. -/
theorem C18_solver_symmetric {F : Type} [Field F] (x1 y1 m1 x2 y2 m2 : F) (h : m1 ≠ m2) :
    x_intersect x2 y2 m2 x1 y1 m1 = x_intersect x1 y1 m1 x2 y2 m2 ∧
    y_intersect x2 y2 m2 x1 y1 m1 = y_intersect x1 y1 m1 x2 y2 m2 := by
  have hd : m1 - m2 ≠ 0 := sub_ne_zero.mpr h
  have hd' : m2 - m1 ≠ 0 := sub_ne_zero.mpr (Ne.symm h)
  constructor
  · unfold x_intersect gradient
    field_simp
    ring
  · unfold y_intersect x_intersect gradient
    field_simp
    ring

/-- Witness for C18 at the lines of the worked example over `ℚ`. -/
theorem C18_solver_symmetric_witness :
    (1 : ℚ) ≠ 2 ∧
    (x_intersect (1 : ℚ) 0 2 0 0 1 = x_intersect (0 : ℚ) 0 1 1 0 2 ∧
     y_intersect (1 : ℚ) 0 2 0 0 1 = y_intersect (0 : ℚ) 0 1 1 0 2) :=
  ⟨by decide, C18_solver_symmetric 0 0 1 1 0 2 (by decide)⟩

/-- Theorem C19: in exact arithmetic (any field), for all offsets and gradients `m1 ≠ m2`, every
point `(u, v)` that lies on both lines is the point the solver computes. -/
theorem C19_solution_unique {F : Type} [Field F] (x1 y1 m1 x2 y2 m2 u v : F) (h : m1 ≠ m2)
    (h1 : v = m1 * (u - x1) + y1) (h2 : v = m2 * (u - x2) + y2) :
    u = x_intersect x1 y1 m1 x2 y2 m2 ∧ v = y_intersect x1 y1 m1 x2 y2 m2 := by
  have hd : m1 - m2 ≠ 0 := sub_ne_zero.mpr h
  have hu : u = x_intersect x1 y1 m1 x2 y2 m2 := by
    unfold x_intersect gradient
    rw [eq_div_iff hd]
    have e : m1 * (u - x1) + y1 = m2 * (u - x2) + y2 := h1.symm.trans h2
    linear_combination e
  refine ⟨hu, ?_⟩
  unfold y_intersect
  rw [← hu]
  exact h1

/-- Witness for C19: the point `(2, 2)` on the lines `y = x` and `y = 2(x - 1)` over `ℚ`. -/
theorem C19_solution_unique_witness :
    ((1 : ℚ) ≠ 2 ∧ (2 : ℚ) = 1 * (2 - 0) + 0 ∧ (2 : ℚ) = 2 * (2 - 1) + 0) ∧
    ((2 : ℚ) = x_intersect (0 : ℚ) 0 1 1 0 2 ∧ (2 : ℚ) = y_intersect (0 : ℚ) 0 1 1 0 2) :=
  ⟨by decide!, C19_solution_unique 0 0 1 1 0 2 2 2 (by decide) (by decide!) (by decide!)⟩

/-- Theorem C20: in exact arithmetic (any field), for all offsets, gradients `m1 ≠ m2` and all
`t`, replacing the first offset `(x1, y1)` by `(x1 + t, y1 + m1 * t)`, another point of the
first line, leaves the computed point unchanged, and so does replacing the second offset
`(x2, y2)` by `(x2 + t, y2 + m2 * t)`. -/
theorem C20_reference_point_irrelevant {F : Type} [Field F] (x1 y1 m1 x2 y2 m2 t : F)
    (h : m1 ≠ m2) :
    (x_intersect (x1 + t) (y1 + m1 * t) m1 x2 y2 m2 = x_intersect x1 y1 m1 x2 y2 m2 ∧
     y_intersect (x1 + t) (y1 + m1 * t) m1 x2 y2 m2 = y_intersect x1 y1 m1 x2 y2 m2) ∧
    (x_intersect x1 y1 m1 (x2 + t) (y2 + m2 * t) m2 = x_intersect x1 y1 m1 x2 y2 m2 ∧
     y_intersect x1 y1 m1 (x2 + t) (y2 + m2 * t) m2 = y_intersect x1 y1 m1 x2 y2 m2) := by
  have hd : m1 - m2 ≠ 0 := sub_ne_zero.mpr h
  have hx1 : x_intersect (x1 + t) (y1 + m1 * t) m1 x2 y2 m2 = x_intersect x1 y1 m1 x2 y2 m2 := by
    unfold x_intersect gradient
    field_simp
    ring
  have hx2 : x_intersect x1 y1 m1 (x2 + t) (y2 + m2 * t) m2 = x_intersect x1 y1 m1 x2 y2 m2 := by
    unfold x_intersect gradient
    field_simp
    ring
  refine ⟨⟨hx1, ?_⟩, ⟨hx2, ?_⟩⟩
  · unfold y_intersect
    rw [hx1]
    ring
  · unfold y_intersect
    rw [hx2]

/-- Witness for C20: the first line of the worked example moved along itself by `t = 5`, and
the second by `t = 5`, over `ℚ`. -/
theorem C20_reference_point_irrelevant_witness :
    (1 : ℚ) ≠ 2 ∧
    ((x_intersect (0 + 5 : ℚ) (0 + 1 * 5) 1 1 0 2 = x_intersect (0 : ℚ) 0 1 1 0 2 ∧
      y_intersect (0 + 5 : ℚ) (0 + 1 * 5) 1 1 0 2 = y_intersect (0 : ℚ) 0 1 1 0 2) ∧
     (x_intersect (0 : ℚ) 0 1 (1 + 5) (0 + 2 * 5) 2 = x_intersect (0 : ℚ) 0 1 1 0 2 ∧
      y_intersect (0 : ℚ) 0 1 (1 + 5) (0 + 2 * 5) 2 = y_intersect (0 : ℚ) 0 1 1 0 2)) :=
  ⟨by decide, C20_reference_point_irrelevant 0 0 1 1 0 2 5 (by decide)⟩

/-- A failing parse of the tokens is the outcome of the whole run. -/
theorem main_of_parse_error {F : Type} [Add F] [Sub F] [Mul F] [Div F] [Neg F] [CFloat F]
    [CLibc F] [CMath F] (PN : String) (opts : List Char) (args : List String) (st : Flags)
    (o : Outcome) (hloop : option_loop PN "" opts Flags.init = .ok st)
    (husage : check_usage "" st args.length = .ok ())
    (hparse : parse_lines (F := F) "" args 0 = .error o) :
    main (F := F) PN opts args = o := by
  unfold main main_run
  simp only [bind, Except.bind, hloop, husage, hparse]

/-- A text that starts with a nonempty text is nonempty. -/
theorem append_ne_empty (s t : String) (h : s ≠ "") : s ++ t ≠ "" := by
  intro e
  have hl : (s ++ t).length = 0 := by rw [e]; rfl
  rw [String.length_append] at hl
  have h0 : s.length = 0 := by omega
  apply h
  cases s with
  | mk l =>
    have : l = [] := List.length_eq_zero.mp h0
    subst this
    rfl

/-- The help text is not empty. -/
theorem help_text_ne_empty (PN : String) : help_text PN ≠ "" := by
  unfold help_text
  repeat apply append_ne_empty
  decide

/-- A successful run has printed something: its output starts with `y=`. -/
theorem print_result_ne_empty {F : Type} [Neg F] [CFloat F] [CLibc F] (mode : Mode)
    (subtract90 : Bool) (lines : Line F × Line F) (x y : F) :
    print_result mode subtract90 "" lines x y ≠ "" := by
  unfold print_result
  iterate 4 apply append_ne_empty
  rw [String.empty_append]
  unfold print_line
  iterate 2 apply append_ne_empty
  decide

/-- The five ways a run can end: help, a usage error, a parse error, a solver error, or
success; an error leaves standard output empty. -/
theorem main_outcome_cases {F : Type} [Add F] [Sub F] [Mul F] [Div F] [Neg F] [CFloat F]
    [CLibc F] [CMath F] (PN : String) (opts : List Char) (args : List String) :
    ('h' ∈ opts ∧ main (F := F) PN opts args = ⟨0, help_text PN, ""⟩) ∨
    (∃ msg, main (F := F) PN opts args = ⟨1, "", msg⟩) ∨
    (∃ msg, main (F := F) PN opts args = ⟨2, "", msg⟩) ∨
    (∃ msg, main (F := F) PN opts args = ⟨3, "", msg⟩) ∨
    (∃ (st : Flags) (lines : Line F × Line F) (x y : F),
      main (F := F) PN opts args = ⟨0, print_result st.mode st.subtract90 "" lines x y, ""⟩) := by
  by_cases hh : 'h' ∈ opts
  · left
    refine ⟨hh, ?_⟩
    unfold main main_run
    simp only [bind, Except.bind, option_loop_help PN "" opts Flags.init hh]
    simp
  · right
    have hloop := option_loop_no_help PN "" opts Flags.init hh
    cases hu : check_usage "" (opts.foldl option_step Flags.init) args.length with
    | error o =>
      left
      have ho := check_usage_error _ _ _ _ hu
      refine ⟨o.stderr, ?_⟩
      rw [main_of_usage_error PN opts args _ o hloop hu]
      cases o
      simp only at ho
      rw [ho.1, ho.2]
    | ok u =>
      cases u
      right
      cases hp : parse_lines (F := F) "" args 0 with
      | error o =>
        left
        have ho := parse_lines_error _ _ _ _ hp
        refine ⟨o.stderr, ?_⟩
        rw [main_of_parse_error PN opts args _ o hloop hu hp]
        cases o
        simp only at ho
        rw [ho.1, ho.2]
      | ok lines =>
        right
        rw [main_of_front PN opts args _ lines hloop hu hp]
        cases hs : solve "" (resolve_gradients (opts.foldl option_step Flags.init).mode
            (opts.foldl option_step Flags.init).subtract90 lines) with
        | error o =>
          left
          have ho := solve_error _ _ _ hs
          refine ⟨o.stderr, ?_⟩
          cases o
          simp only at ho
          simp only [ho.1, ho.2]
        | ok p =>
          right
          exact ⟨_, _, p.1, p.2, rfl⟩

/-- Theorem C15: with standard output as explicit state, a run that ends with exit status 1, 2
or 3 has empty standard output; standard output is nonempty only when the exit status is 0 and
the run is either the help run (output: the help text) or a successful run (output: the two
line equations and the result); and both of these do print. -/
theorem C15_errors_print_nothing {F : Type} [Add F] [Sub F] [Mul F] [Div F] [Neg F] [CFloat F]
    [CLibc F] [CMath F] (PN : String) (opts : List Char) (args : List String) :
    (((main (F := F) PN opts args).status = 1 ∨ (main (F := F) PN opts args).status = 2 ∨
        (main (F := F) PN opts args).status = 3) →
      (main (F := F) PN opts args).stdout = "") ∧
    ((main (F := F) PN opts args).stdout ≠ "" →
      (main (F := F) PN opts args).status = 0 ∧
      (main (F := F) PN opts args = ⟨0, help_text PN, ""⟩ ∨
        ∃ (st : Flags) (lines : Line F × Line F) (x y : F),
          main (F := F) PN opts args =
            ⟨0, print_result st.mode st.subtract90 "" lines x y, ""⟩)) ∧
    ((main (F := F) PN opts args).status = 0 → (main (F := F) PN opts args).stdout ≠ "") := by
  rcases main_outcome_cases (F := F) PN opts args with
    ⟨_, h⟩ | ⟨msg, h⟩ | ⟨msg, h⟩ | ⟨msg, h⟩ | ⟨st, lines, x, y, h⟩
  · rw [h]
    refine ⟨?_, fun _ => ⟨rfl, Or.inl rfl⟩, fun _ => help_text_ne_empty PN⟩
    rintro (h' | h' | h') <;> cases h'
  · rw [h]
    refine ⟨fun _ => rfl, fun h' => absurd rfl h', ?_⟩
    intro h'; cases h'
  · rw [h]
    refine ⟨fun _ => rfl, fun h' => absurd rfl h', ?_⟩
    intro h'; cases h'
  · rw [h]
    refine ⟨fun _ => rfl, fun h' => absurd rfl h', ?_⟩
    intro h'; cases h'
  · rw [h]
    refine ⟨?_, fun _ => ⟨rfl, Or.inr ⟨st, lines, x, y, rfl⟩⟩,
      fun _ => print_result_ne_empty _ _ _ _ _⟩
    rintro (h' | h' | h') <;> cases h'

/-- Witness for C15: the binary64 run on `0 0 x 0 0 1` ends with exit status 2 and has printed
nothing. -/
theorem C15_errors_print_nothing_witness :
    (main (F := Double) "linear-intersection" [] ["0", "0", "x", "0", "0", "1"]).status = 2 ∧
    (main (F := Double) "linear-intersection" [] ["0", "0", "x", "0", "0", "1"]).stdout = "" :=
  ⟨by decide!,
    (C15_errors_print_nothing (F := Double) "linear-intersection" []
      ["0", "0", "x", "0", "0", "1"]).1 (Or.inr (Or.inl (by decide!)))⟩

/-- A rejected token makes `parse_double_argument` end the run with status 2. -/
theorem parse_double_argument_rejected {F : Type} [CFloat F] [CLibc F] (out : String)
    (argv : List String) (arg_name : String) (arg_index : Nat)
    (h : rejected F (argv.getD arg_index "")) :
    parse_double_argument (F := F) out argv arg_name arg_index =
      .error ⟨2, out,
        arg_name ++ ": " ++ argv.getD arg_index "" ++ ": not a valid floating point number"⟩ := by
  rw [parse_double_argument_eq]
  unfold rejected at h
  rw [if_pos h]
  rfl

/-- A token that is not rejected is stored and the index advances by one. -/
theorem parse_double_argument_accepted {F : Type} [CFloat F] [CLibc F] (out : String)
    (argv : List String) (arg_name : String) (arg_index : Nat)
    (h : ¬ rejected F (argv.getD arg_index "")) :
    parse_double_argument (F := F) out argv arg_name arg_index =
      .ok ((strtod (F := F) (argv.getD arg_index "")).1, arg_index + 1) := by
  rw [parse_double_argument_eq]
  unfold rejected at h
  rw [if_neg h]

/-- The six calls of `parse_lines` are `parse_sequence` over `arg_names`: when the sequence
fails, `parse_lines` fails with the same outcome. -/
theorem parse_lines_of_sequence_error {F : Type} [CFloat F] [CLibc F] (out : String)
    (argv : List String) (optind : Nat) (stored : List F) (o : Outcome)
    (h : parse_sequence (F := F) out argv arg_names optind [] = (stored, .error o)) :
    parse_lines (F := F) out argv optind = .error o := by
  unfold parse_lines
  simp only [arg_names, parse_sequence, bind, Except.bind] at h ⊢
  revert h
  cases h0 : parse_double_argument (F := F) out argv "x1" optind with
  | error o0 =>
    intro h
    cases h
    rfl
  | ok r0 =>
    obtain ⟨v0, j0⟩ := r0
    simp only
    cases h1 : parse_double_argument (F := F) out argv "y1" j0 with
    | error o1 =>
      intro h
      cases h
      rfl
    | ok r1 =>
      obtain ⟨v1, j1⟩ := r1
      simp only
      cases h2 : parse_double_argument (F := F) out argv "m1" j1 with
      | error o2 =>
        intro h
        cases h
        rfl
      | ok r2 =>
        obtain ⟨v2, j2⟩ := r2
        simp only
        cases h3 : parse_double_argument (F := F) out argv "x2" j2 with
        | error o3 =>
          intro h
          cases h
          rfl
        | ok r3 =>
          obtain ⟨v3, j3⟩ := r3
          simp only
          cases h4 : parse_double_argument (F := F) out argv "y2" j3 with
          | error o4 =>
            intro h
            cases h
            rfl
          | ok r4 =>
            obtain ⟨v4, j4⟩ := r4
            simp only
            cases h5 : parse_double_argument (F := F) out argv "m2" j4 with
            | error o5 =>
              intro h
              cases h
              rfl
            | ok r5 =>
              obtain ⟨v5, j5⟩ := r5
              simp only
              intro h
              cases h

/-- What a failing sequence leaves behind: when the first `k` tokens from index `i` on are
accepted and the next one is rejected, the store has grown by the values of the first `k`
tokens, and the outcome is the `errx` of the call for token `k`. -/
theorem parse_sequence_first_rejected {F : Type} [CFloat F] [CLibc F] (out : String)
    (argv : List String) :
    ∀ (names : List String) (k i : Nat) (stored : List F), k < names.length →
      (∀ j, j < k → ¬ rejected F (argv.getD (i + j) "")) →
      rejected F (argv.getD (i + k) "") →
      parse_sequence (F := F) out argv names i stored =
        (stored ++ (List.range k).map (fun j => (strtod (F := F) (argv.getD (i + j) "")).1),
          .error ⟨2, out, names.getD k "" ++ ": " ++ argv.getD (i + k) "" ++
            ": not a valid floating point number"⟩) := by
  intro names
  induction names with
  | nil => intro k i stored hk; cases hk
  | cons name rest ih =>
    intro k i stored hk hacc hrej
    cases k with
    | zero =>
      unfold parse_sequence
      rw [parse_double_argument_rejected out argv name i hrej]
      simp
    | succ k =>
      have h0 : ¬ rejected F (argv.getD i "") := hacc 0 (Nat.succ_pos k)
      unfold parse_sequence
      rw [parse_double_argument_accepted out argv name i h0]
      simp only
      rw [ih k (i + 1) _ (Nat.lt_of_succ_lt_succ hk)
        (fun j hj => by
          have := hacc (j + 1) (Nat.succ_lt_succ hj)
          rwa [show i + 1 + j = i + (j + 1) by omega])
        (by rwa [show i + 1 + k = i + (k + 1) by omega])]
      simp only [List.getD_cons_succ, List.range_succ_eq_map, List.map_cons, List.map_map,
        List.append_assoc, List.singleton_append, Prod.mk.injEq, Nat.add_zero]
      refine ⟨?_, ?_⟩
      · congr 2
        apply List.map_congr_left
        intro j _
        simp only [Function.comp, show i + 1 + j = i + (j + 1) by omega]
      · simp only [show i + 1 + k = i + (k + 1) by omega]

/-- Theorem C17: the six tokens are validated in the order of `arg_names` (x1, y1, m1, x2, y2,
m2) and validation stops at the first failure: when token `k` is the first rejected one,
whatever the later tokens are, the run ends with exit status 2 and the message naming token
`k` and its semantic name, and the values stored are exactly those of the tokens before it. -/
theorem C17_first_malformed_token {F : Type} [Add F] [Sub F] [Mul F] [Div F] [Neg F]
    [CFloat F] [CLibc F] [CMath F] (PN : String) (opts : List Char) (args : List String)
    (st : Flags) (k : Nat)
    (hloop : option_loop PN "" opts Flags.init = .ok st)
    (husage : check_usage "" st args.length = .ok ())
    (hk : k < 6)
    (hacc : ∀ j, j < k → ¬ rejected F (args.getD j ""))
    (hrej : rejected F (args.getD k "")) :
    main (F := F) PN opts args =
      ⟨2, "", arg_names.getD k "" ++ ": " ++ args.getD k "" ++
        ": not a valid floating point number"⟩ ∧
    parse_sequence (F := F) "" args arg_names 0 [] =
      ((List.range k).map (fun j => (strtod (F := F) (args.getD j "")).1),
        .error ⟨2, "", arg_names.getD k "" ++ ": " ++ args.getD k "" ++
          ": not a valid floating point number"⟩) := by
  have hseq := parse_sequence_first_rejected (F := F) "" args arg_names k 0 [] hk
    (fun j hj => by rw [Nat.zero_add]; exact hacc j hj) (by rw [Nat.zero_add]; exact hrej)
  simp only [Nat.zero_add, List.nil_append] at hseq
  refine ⟨?_, hseq⟩
  exact main_of_parse_error PN opts args st _ hloop husage
    (parse_lines_of_sequence_error "" args 0 _ _ hseq)

/-- Witness for C17: the binary64 run on `0 1 x 3 y z`, where the third, fifth and sixth tokens
are malformed: the message names `m1` and `x`, and two values are stored. -/
theorem C17_first_malformed_token_witness :
    ((∀ j, j < 2 → ¬ rejected Double (["0", "1", "x", "3", "y", "z"].getD j "")) ∧
      rejected Double (["0", "1", "x", "3", "y", "z"].getD 2 "")) ∧
    (main (F := Double) "linear-intersection" [] ["0", "1", "x", "3", "y", "z"] =
        ⟨2, "", "m1: x: not a valid floating point number"⟩ ∧
      parse_sequence (F := Double) "" ["0", "1", "x", "3", "y", "z"] arg_names 0 [] =
        ([lit 0, lit 1], .error ⟨2, "", "m1: x: not a valid floating point number"⟩)) :=
  ⟨by decide!,
    C17_first_malformed_token (F := Double) "linear-intersection" []
      ["0", "1", "x", "3", "y", "z"] Flags.init 2 rfl rfl (by decide)
      (by decide!) (by decide!)⟩

/-- The real tangent at `884279719003555 / 2^49`, the value of the double just below `π/2`, is
finite: it lies between `1.6e16` and `1.7e16`. -/
theorem real_tan_near_pi_div_two :
    (16000000000000000 : ℝ) < Real.tan (884279719003555 / 562949953421312) ∧
    Real.tan (884279719003555 / 562949953421312) < 17000000000000000 := by
  have hgt := Real.pi_gt_d20
  have hlt := Real.pi_lt_d20
  set a : ℝ := 884279719003555 / 562949953421312 with ha
  set δ : ℝ := Real.pi / 2 - a with hδ
  have hlo : (61231 : ℝ) / 10 ^ 21 < δ := by
    rw [hδ, ha]; norm_num at hgt ⊢; linarith
  have hhi : δ < (61237 : ℝ) / 10 ^ 21 := by
    rw [hδ, ha]; norm_num at hlt ⊢; linarith
  have hδ0 : 0 < δ := lt_trans (by norm_num) hlo
  have hδ1 : δ < 1 := lt_trans hhi (by norm_num)
  have hπ : δ < Real.pi / 2 := by linarith [Real.pi_gt_three]
  have hat : Real.tan a = (Real.tan δ)⁻¹ := by
    rw [← Real.tan_pi_div_two_sub, hδ]; congr 1; ring
  have ht1 : δ < Real.tan δ := Real.lt_tan hδ0 hπ
  have hcos : 1 - δ ^ 2 / 2 ≤ Real.cos δ := Real.one_sub_sq_div_two_le_cos
  have hcos0 : (0 : ℝ) < 1 - δ ^ 2 / 2 := by nlinarith
  have hcpos : 0 < Real.cos δ := lt_of_lt_of_le hcos0 hcos
  have hsin : Real.sin δ < δ := Real.sin_lt hδ0
  have ht2 : Real.tan δ < δ / (1 - δ ^ 2 / 2) := by
    rw [Real.tan_eq_sin_div_cos]
    calc Real.sin δ / Real.cos δ < δ / Real.cos δ := by
            exact div_lt_div_of_pos_right hsin hcpos
      _ ≤ δ / (1 - δ ^ 2 / 2) := by
            exact div_le_div_of_nonneg_left hδ0.le hcos0 hcos
  have htpos : 0 < Real.tan δ := lt_trans hδ0 ht1
  rw [hat]
  constructor
  · rw [lt_inv_comm₀ (by norm_num) htpos]
    refine lt_trans ht2 ?_
    rw [div_lt_iff₀ hcos0]
    nlinarith
  · rw [inv_lt_comm₀ htpos (by norm_num)]
    refine lt_trans ?_ ht1
    refine lt_trans ?_ hlo
    norm_num

/-- The real tangent at `884279719003555 / 2^50`, the value of the double just below `π/4`, is
strictly between `1 - 3 * 2^-54` and `1 - 2^-54`: it is not `1`, and the binary64 value
nearest to it is `1 - 2^-53`. -/
theorem real_tan_near_pi_div_four :
    (1 : ℝ) - 3 / 18014398509481984 < Real.tan (884279719003555 / 1125899906842624) ∧
    Real.tan (884279719003555 / 1125899906842624) < 1 - 1 / 18014398509481984 := by
  have hgt := Real.pi_gt_d20
  have hlt := Real.pi_lt_d20
  obtain ⟨δ, hδ⟩ : ∃ δ : ℝ, δ = Real.pi / 4 - 884279719003555 / 1125899906842624 := ⟨_, rfl⟩
  have hlo : (30615 : ℝ) / 10 ^ 21 < δ := by
    rw [hδ]; norm_num at hgt ⊢; linarith
  have hhi : δ < (30619 : ℝ) / 10 ^ 21 := by
    rw [hδ]; norm_num at hlt ⊢; linarith
  have hδ0 : 0 < δ := lt_trans (by norm_num) hlo
  have hδ1 : δ ≤ 1 := le_of_lt (lt_trans hhi (by norm_num))
  have hcos : 1 - δ ^ 2 / 2 ≤ Real.cos δ := Real.one_sub_sq_div_two_le_cos
  have hcos1 : Real.cos δ ≤ 1 := Real.cos_le_one δ
  have hsin : Real.sin δ < δ := Real.sin_lt hδ0
  have hsin' : δ - δ ^ 3 / 4 < Real.sin δ := Real.sin_gt_sub_cube hδ0 hδ1
  have hδ2 : δ ^ 2 < 1 / 10 ^ 30 := by nlinarith
  have hδ3 : δ ^ 3 < δ / 10 ^ 30 := by
    have : δ ^ 3 = δ * δ ^ 2 := by ring
    rw [this, div_eq_mul_one_div]
    exact mul_lt_mul_of_pos_left hδ2 hδ0
  have hs0 : 0 < Real.sin δ := by
    have : δ / 10 ^ 30 ≤ δ := by
      rw [div_le_iff₀ (by norm_num)]; nlinarith
    linarith
  have hc0 : 0 < Real.cos δ := by linarith
  have hden : 0 < Real.cos δ + Real.sin δ := by positivity
  have hat : Real.tan (884279719003555 / 1125899906842624) =
      (Real.cos δ - Real.sin δ) / (Real.cos δ + Real.sin δ) := by
    have e : (884279719003555 / 1125899906842624 : ℝ) = Real.pi / 4 - δ := by rw [hδ]; ring
    have h2 : (√2 : ℝ) ≠ 0 := by positivity
    rw [Real.tan_eq_sin_div_cos, e, Real.sin_sub, Real.cos_sub, Real.sin_pi_div_four,
      Real.cos_pi_div_four]
    have hne : Real.cos δ + Real.sin δ ≠ 0 := ne_of_gt hden
    field_simp
    ring
  rw [hat]
  constructor
  · rw [lt_div_iff₀ hden]
    linarith
  · rw [div_lt_iff₀ hden]
    linarith

/-- The run on binary64 after a front end that succeeded, for any tangent function. -/
theorem main_binary64_of_front (t : Double → Double) (PN : String) (opts : List Char)
    (args : List String) (st : Flags) (lines : Line Double × Line Double)
    (hloop : option_loop PN "" opts Flags.init = .ok st)
    (husage : check_usage "" st args.length = .ok ())
    (hparse : parse_lines (F := Double) "" args 0 = .ok lines) :
    main_binary64 t PN opts args =
      match solve "" (@resolve_gradients Double _ _ _ _ (Double.libm t) st.mode st.subtract90
          lines) with
      | .ok p =>
        ⟨0, print_result st.mode st.subtract90 ""
          (@resolve_gradients Double _ _ _ _ (Double.libm t) st.mode st.subtract90 lines)
          p.1 p.2, ""⟩
      | .error o => o := by
  unfold main_binary64
  have h := @main_of_front Double _ _ _ _ _ _ _ (Double.libm t) PN opts args st lines hloop husage
    hparse
  rw [h]
  cases solve "" (@resolve_gradients Double _ _ _ _ (Double.libm t) st.mode st.subtract90
    lines) <;> rfl

/-- Degrees mode without the subtract flag on binary64: each gradient becomes
`t (s * M_PI / 180)`. -/
theorem resolve_degrees_binary64 (t : Double → Double) (l1 l2 : Line Double) :
    @resolve_gradients Double _ _ _ _ (Double.libm t) DEGREES false (l1, l2) =
      ({ l1 with gradient := t (l1.gradient * Double.M_PI / lit 180) },
       { l2 with gradient := t (l2.gradient * Double.M_PI / lit 180) }) := rfl

namespace Double

/-- The class `FP_INFINITE` is the predicate `isInf`. -/
theorem classify_eq_infinite (x : Double) : classify x = FP_INFINITE ↔ x.isInf = true := by
  unfold classify isInf
  by_cases h1 : x.exponent = 2047 <;> by_cases h2 : x.fraction = 0 <;>
    by_cases h3 : x.exponent = 0 <;> simp [h1, h2, h3]

/-- The class `FP_NAN` is the predicate `isNaN`. -/
theorem classify_eq_nan (x : Double) : classify x = FP_NAN ↔ x.isNaN = true := by
  unfold classify isNaN
  by_cases h1 : x.exponent = 2047 <;> by_cases h2 : x.fraction = 0 <;>
    by_cases h3 : x.exponent = 0 <;> simp [h1, h2, h3]

/-- A difference with an infinite or NaN operand is infinite or NaN. -/
theorem classify_sub_of_not_finite (x y : Double)
    (h : (classify x = FP_INFINITE ∨ classify x = FP_NAN) ∨
      (classify y = FP_INFINITE ∨ classify y = FP_NAN)) :
    classify (x - y) = FP_INFINITE ∨ classify (x - y) = FP_NAN := by
  simp only [classify_eq_infinite, classify_eq_nan] at h ⊢
  show (add x (neg y)).isInf = true ∨ (add x (neg y)).isNaN = true
  have hnan : nan.isNaN = true := by decide
  have hni : (neg y).isInf = y.isInf := rfl
  have hnn : (neg y).isNaN = y.isNaN := rfl
  unfold add
  rw [hni, hnn]
  by_cases c1 : x.isNaN = true ∨ y.isNaN = true
  · rw [if_pos c1]; exact Or.inr hnan
  · rw [if_neg c1]
    by_cases c2 : x.isInf = true
    · rw [if_pos c2]
      split
      · exact Or.inr hnan
      · exact Or.inl c2
    · rw [if_neg c2]
      by_cases c3 : y.isInf = true
      · rw [if_pos c3]; exact Or.inl (hni.trans c3)
      · exfalso
        rcases h with (h | h) | (h | h)
        · exact c2 h
        · exact c1 (Or.inl h)
        · exact c3 h
        · exact c1 (Or.inr h)

end Double

/-- A run that reaches the solver with an infinite or NaN gradient difference ends with
`Error calculating intersection`. -/
theorem solve_of_not_finite {F : Type} [Add F] [Sub F] [Mul F] [Div F] [CFloat F]
    (out : String) (lines : Line F × Line F)
    (h : fpclassify (gradient lines.1.gradient lines.2.gradient) = FP_INFINITE ∨
      fpclassify (gradient lines.1.gradient lines.2.gradient) = FP_NAN) :
    solve out lines = .error ⟨3, out, "Error calculating intersection"⟩ := by
  rw [solve_eq]
  rcases h with h | h <;> rw [h] <;> rfl

namespace Double

/-- The constant `M_PI_2` is the double `0x3FF921FB54442D18`. -/
theorem M_PI_2_bits : Double.M_PI_2 = ⟨false, 1023, 0x921FB54442D18⟩ := by decide!

/-- In binary64, `90 * M_PI / 180` is exactly `M_PI_2`. -/
theorem ninety_degrees : (lit 90 : Double) * Double.M_PI / lit 180 = Double.M_PI_2 := by
  rw [M_PI_2_bits]
  decide!

/-- In binary64, `45 * M_PI / 180` is the double `0x3FE921FB54442D18`. -/
theorem forty_five_degrees :
    (lit 45 : Double) * Double.M_PI / lit 180 = ⟨false, 1022, 0x921FB54442D18⟩ := by
  decide!

/-- In binary64, `-45 * M_PI / 180` is the double `0xBFE921FB54442D18`. -/
theorem minus_forty_five_degrees :
    (-(lit 45 : Double)) * Double.M_PI / lit 180 = ⟨true, 1022, 0x921FB54442D18⟩ := by
  decide!

end Double

/-- The option loop on the single option `d`. -/
theorem option_loop_degrees (PN : String) :
    option_loop PN "" ['d'] Flags.init = .ok ⟨DEGREES, false, false⟩ := by
  rw [option_loop_no_help PN "" ['d'] Flags.init (by decide)]
  rfl

/-- A binary64 run in degrees mode without the subtract flag, once the six tokens are parsed
and the two tangents are known. -/
theorem main_binary64_degrees (t : Double → Double) (PN : String) (args : List String)
    (l1 l2 : Line Double) (g1 g2 : Double) (hlen : args.length = 6)
    (hparse : parse_lines (F := Double) "" args 0 = .ok (l1, l2))
    (h1 : t (l1.gradient * Double.M_PI / lit 180) = g1)
    (h2 : t (l2.gradient * Double.M_PI / lit 180) = g2) :
    main_binary64 t PN ['d'] args =
      match solve "" (({ l1 with gradient := g1 } : Line Double), { l2 with gradient := g2 }) with
      | .ok p =>
        ⟨0, print_result DEGREES false ""
          (({ l1 with gradient := g1 } : Line Double), { l2 with gradient := g2 }) p.1 p.2, ""⟩
      | .error o => o := by
  rw [main_binary64_of_front t PN ['d'] args ⟨DEGREES, false, false⟩ (l1, l2)
    (option_loop_degrees PN) (by rw [hlen]; rfl) hparse, resolve_degrees_binary64, h1, h2]

/-- Counterexample to C11 as stated: in degrees mode the input 90 is resolved through
`tan(90 * M_PI / 180) = tan(M_PI_2)`, and `M_PI_2`, the double `884279719003555 / 2^49`, lies
below `π/2`: its tangent is finite, between `1.6e16` and `1.7e16`.  With the binary64 value
16331239353195370 that the C library returns there, the run on `0 0 90 0 0 0` prints an
intersection and exits with status 0. -/
theorem C11_counterexample :
    (lit 90 : Double) * Double.M_PI / lit 180 = Double.M_PI_2 ∧
    Double.M_PI_2.toRat = 884279719003555 / 562949953421312 ∧
    ((16000000000000000 : ℝ) < Real.tan ((884279719003555 / 562949953421312 : ℚ) : ℝ) ∧
      Real.tan ((884279719003555 / 562949953421312 : ℚ) : ℝ) < 17000000000000000) ∧
    Double.tan_table Double.M_PI_2 = ⟨false, 1076, 0xD02967C31CDB5⟩ ∧
    Double.toRat ⟨false, 1076, 0xD02967C31CDB5⟩ = 16331239353195370 ∧
    main_binary64 Double.tan_table "linear-intersection" ['d'] ["0", "0", "90", "0", "0", "0"] =
      ⟨0, "y=tan(90°)*x\ny=0\nx = 0\ny = 0\n(0, 0)\n", ""⟩ := by
  refine ⟨Double.ninety_degrees, by decide!, ?_, by decide!, by decide!, ?_⟩
  · have e : ((884279719003555 / 562949953421312 : ℚ) : ℝ) =
        884279719003555 / 562949953421312 := by push_cast; rfl
    rw [e]
    exact real_tan_near_pi_div_two
  · exact (main_binary64_degrees Double.tan_table "linear-intersection"
      ["0", "0", "90", "0", "0", "0"] ⟨⟨false, 0, 0⟩, ⟨false, 0, 0⟩, lit 90, lit 90⟩
      ⟨⟨false, 0, 0⟩, ⟨false, 0, 0⟩, ⟨false, 0, 0⟩, ⟨false, 0, 0⟩⟩
      ⟨false, 1076, 0xD02967C31CDB5⟩ ⟨false, 0, 0⟩ rfl (by decide!) (by decide!)
      (by decide!)).trans (by decide!)

/-- Theorem C11 (amended): on binary64 in degrees mode with the subtract flag unset,
`90 * M_PI / 180` is `M_PI_2`, so a line whose slope input is 90 resolves to `tan(M_PI_2)`;
and whenever the C library's `tan` returns an infinite or NaN value there, the run is
classified as the `Error calculating intersection` failure (exit status 3) with nothing
printed, whatever the other line and the offsets are. -/
theorem C11_degrees_ninety (t : Double → Double) (PN : String) (args : List String)
    (l1 l2 : Line Double) (hlen : args.length = 6)
    (hparse : parse_lines (F := Double) "" args 0 = .ok (l1, l2))
    (h90 : l1.gradient_input = lit 90 ∨ l2.gradient_input = lit 90)
    (hnf : fpclassify (t Double.M_PI_2) = FP_INFINITE ∨ fpclassify (t Double.M_PI_2) = FP_NAN) :
    (lit 90 : Double) * Double.M_PI / lit 180 = Double.M_PI_2 ∧
    (l1.gradient_input = lit 90 →
      (@resolve_gradients Double _ _ _ _ (Double.libm t) DEGREES false (l1, l2)).1.gradient =
        t Double.M_PI_2) ∧
    (l2.gradient_input = lit 90 →
      (@resolve_gradients Double _ _ _ _ (Double.libm t) DEGREES false (l1, l2)).2.gradient =
        t Double.M_PI_2) ∧
    main_binary64 t PN ['d'] args = ⟨3, "", "Error calculating intersection"⟩ := by
  have hg := parse_lines_gradient "" args 0 (l1, l2) hparse
  have r1 : l1.gradient_input = lit 90 →
      (@resolve_gradients Double _ _ _ _ (Double.libm t) DEGREES false (l1, l2)).1.gradient =
        t Double.M_PI_2 := by
    intro h
    rw [resolve_degrees_binary64]
    show t (l1.gradient * Double.M_PI / lit 180) = t Double.M_PI_2
    rw [hg.1, h, Double.ninety_degrees]
  have r2 : l2.gradient_input = lit 90 →
      (@resolve_gradients Double _ _ _ _ (Double.libm t) DEGREES false (l1, l2)).2.gradient =
        t Double.M_PI_2 := by
    intro h
    rw [resolve_degrees_binary64]
    show t (l2.gradient * Double.M_PI / lit 180) = t Double.M_PI_2
    rw [hg.2, h, Double.ninety_degrees]
  refine ⟨Double.ninety_degrees, r1, r2, ?_⟩
  rw [main_binary64_of_front t PN ['d'] args ⟨DEGREES, false, false⟩ (l1, l2)
    (option_loop_degrees PN) (by rw [hlen]; rfl) hparse]
  have hc : fpclassify (gradient
      (@resolve_gradients Double _ _ _ _ (Double.libm t) DEGREES false (l1, l2)).1.gradient
      (@resolve_gradients Double _ _ _ _ (Double.libm t) DEGREES false (l1, l2)).2.gradient) =
        FP_INFINITE ∨
      fpclassify (gradient
      (@resolve_gradients Double _ _ _ _ (Double.libm t) DEGREES false (l1, l2)).1.gradient
      (@resolve_gradients Double _ _ _ _ (Double.libm t) DEGREES false (l1, l2)).2.gradient) =
        FP_NAN := by
    apply Double.classify_sub_of_not_finite
    rcases h90 with h | h
    · left; rw [r1 h]; exact hnf
    · right; rw [r2 h]; exact hnf
  rw [solve_of_not_finite "" _ hc]

/-- Witness for C11: a tangent function that answers `+∞` at `M_PI_2`, on the tokens
`1 2 90 3 4 45`. -/
theorem C11_degrees_ninety_witness :
    (parse_lines (F := Double) "" ["1", "2", "90", "3", "4", "45"] 0 =
        .ok (⟨lit 1, lit 2, lit 90, lit 90⟩, ⟨lit 3, lit 4, lit 45, lit 45⟩) ∧
      fpclassify (Double.inf false) = FP_INFINITE) ∧
    main_binary64 (fun x => if x = Double.M_PI_2 then Double.inf false else Double.tan_table x)
      "linear-intersection" ['d'] ["1", "2", "90", "3", "4", "45"] =
      ⟨3, "", "Error calculating intersection"⟩ :=
  ⟨⟨by decide!, by decide⟩,
    (C11_degrees_ninety
      (fun x => if x = Double.M_PI_2 then Double.inf false else Double.tan_table x)
      "linear-intersection" ["1", "2", "90", "3", "4", "45"]
      ⟨lit 1, lit 2, lit 90, lit 90⟩ ⟨lit 3, lit 4, lit 45, lit 45⟩ rfl (by decide!)
      (Or.inl rfl) (Or.inl (by decide!))).2.2.2⟩

/-- Counterexample to C14 as stated: in degrees mode the input 45 is resolved through
`tan(45 * M_PI / 180)`, whose argument is the double `884279719003555 / 2^50`, below `π/4`;
its tangent lies strictly between `1 - 3 * 2^-54` and `1 - 2^-54`, so it is not 1 and the
binary64 value nearest to it is `1 - 2^-53` (`0x3FEFFFFFFFFFFFFF`, printed
0.9999999999999999), the value the C library returns.  With it the resolved gradient differs
from 1, and the run prints the coefficient `tan(45°)*`, which `print_line` omits for a
gradient equal to 1. -/
theorem C14_counterexample :
    (lit 45 : Double) * Double.M_PI / lit 180 = ⟨false, 1022, 0x921FB54442D18⟩ ∧
    Double.toRat ⟨false, 1022, 0x921FB54442D18⟩ = 884279719003555 / 1125899906842624 ∧
    ((1 : ℝ) - 3 / 18014398509481984 <
        Real.tan ((884279719003555 / 1125899906842624 : ℚ) : ℝ) ∧
      Real.tan ((884279719003555 / 1125899906842624 : ℚ) : ℝ) < 1 - 1 / 18014398509481984) ∧
    Double.toRat ⟨false, 1022, 0xFFFFFFFFFFFFF⟩ = 1 - 1 / 9007199254740992 ∧
    Double.tan_table ⟨false, 1022, 0x921FB54442D18⟩ = ⟨false, 1022, 0xFFFFFFFFFFFFF⟩ ∧
    CFloat.ne (⟨false, 1022, 0xFFFFFFFFFFFFF⟩ : Double) (lit 1) = true ∧
    main_binary64 Double.tan_table "linear-intersection" ['d']
        ["0", "0", "45", "0", "0", "-45"] =
      ⟨0, "y=tan(45°)*x\ny=tan(-45°)*x\nx = 0\ny = 0\n(0, 0)\n", ""⟩ := by
  refine ⟨Double.forty_five_degrees, by decide!, ?_, by decide!, by decide!, by decide!, ?_⟩
  · have e : ((884279719003555 / 1125899906842624 : ℚ) : ℝ) =
        884279719003555 / 1125899906842624 := by push_cast; rfl
    rw [e]
    exact real_tan_near_pi_div_four
  · exact (main_binary64_degrees Double.tan_table "linear-intersection"
      ["0", "0", "45", "0", "0", "-45"] ⟨⟨false, 0, 0⟩, ⟨false, 0, 0⟩, lit 45, lit 45⟩
      ⟨⟨false, 0, 0⟩, ⟨false, 0, 0⟩, -lit 45, -lit 45⟩
      ⟨false, 1022, 0xFFFFFFFFFFFFF⟩ ⟨true, 1022, 0xFFFFFFFFFFFFF⟩ rfl (by decide!) (by decide!)
      (by decide!)).trans (by decide!)

/-- Theorem C14 (amended): in degrees mode without the subtract flag, the inputs
`0 0 45 0 0 -45` resolve to the gradients `tan(45°)` and `tan(-45°)`, which are 1 and -1 in
exact arithmetic; on binary64 they are `t(0x3FE921FB54442D18)` and `t(0xBFE921FB54442D18)`
for the tangent `t` of the C library, that is `1 - 2^-53` and its negative.  With these
gradients the run succeeds with the intersection `(0, 0)`, the same result as the
gradient-mode inputs `0 0 1 0 0 -1`. -/
theorem C14_degrees_forty_five (t : Double → Double)
    (h1 : t ⟨false, 1022, 0x921FB54442D18⟩ = ⟨false, 1022, 0xFFFFFFFFFFFFF⟩)
    (h2 : t ⟨true, 1022, 0x921FB54442D18⟩ = ⟨true, 1022, 0xFFFFFFFFFFFFF⟩) :
    (Real.tan (45 * Real.pi / 180) = 1 ∧ Real.tan (-45 * Real.pi / 180) = -1) ∧
    @resolve_gradients Double _ _ _ _ (Double.libm t) DEGREES false
        (⟨lit 0, lit 0, lit 45, lit 45⟩, ⟨lit 0, lit 0, -lit 45, -lit 45⟩) =
      (⟨lit 0, lit 0, lit 45, ⟨false, 1022, 0xFFFFFFFFFFFFF⟩⟩,
       ⟨lit 0, lit 0, -lit 45, ⟨true, 1022, 0xFFFFFFFFFFFFF⟩⟩) ∧
    main_binary64 t "linear-intersection" ['d'] ["0", "0", "45", "0", "0", "-45"] =
      ⟨0, "y=tan(45°)*x\ny=tan(-45°)*x\nx = 0\ny = 0\n(0, 0)\n", ""⟩ ∧
    main (F := Double) "linear-intersection" [] ["0", "0", "1", "0", "0", "-1"] =
      ⟨0, "y=x\ny=-1*x\nx = 0\ny = 0\n(0, 0)\n", ""⟩ := by
  have e1 : t ((lit 45 : Double) * Double.M_PI / lit 180) = ⟨false, 1022, 0xFFFFFFFFFFFFF⟩ := by
    rw [Double.forty_five_degrees, h1]
  have e2 : t ((-(lit 45 : Double)) * Double.M_PI / lit 180) =
      ⟨true, 1022, 0xFFFFFFFFFFFFF⟩ := by
    rw [Double.minus_forty_five_degrees, h2]
  refine ⟨⟨?_, ?_⟩, ?_, ?_, by decide!⟩
  · rw [show (45 : ℝ) * Real.pi / 180 = Real.pi / 4 by ring]
    exact Real.tan_pi_div_four
  · rw [show (-45 : ℝ) * Real.pi / 180 = -(Real.pi / 4) by ring, Real.tan_neg,
      Real.tan_pi_div_four]
  · rw [resolve_degrees_binary64]
    simp only [e1, e2]
  · exact (main_binary64_degrees t "linear-intersection"
      ["0", "0", "45", "0", "0", "-45"] ⟨⟨false, 0, 0⟩, ⟨false, 0, 0⟩, lit 45, lit 45⟩
      ⟨⟨false, 0, 0⟩, ⟨false, 0, 0⟩, -lit 45, -lit 45⟩
      ⟨false, 1022, 0xFFFFFFFFFFFFF⟩ ⟨true, 1022, 0xFFFFFFFFFFFFF⟩ rfl (by decide!) e1 e2).trans
      (by decide!)

/-- Witness for C14: the tangent function `Double.tan_table`. -/
theorem C14_degrees_forty_five_witness :
    (Double.tan_table ⟨false, 1022, 0x921FB54442D18⟩ = ⟨false, 1022, 0xFFFFFFFFFFFFF⟩ ∧
      Double.tan_table ⟨true, 1022, 0x921FB54442D18⟩ = ⟨true, 1022, 0xFFFFFFFFFFFFF⟩) ∧
    main_binary64 Double.tan_table "linear-intersection" ['d']
        ["0", "0", "45", "0", "0", "-45"] =
      ⟨0, "y=tan(45°)*x\ny=tan(-45°)*x\nx = 0\ny = 0\n(0, 0)\n", ""⟩ :=
  ⟨by decide!, (C14_degrees_forty_five Double.tan_table (by decide!) (by decide!)).2.2.1⟩

/-- The text of `print_line_form` is the text that `print_line` writes. -/
theorem print_line_form_render {F : Type} [Neg F] [CFloat F] [CLibc F] (mode : Mode)
    (subtract90 : Bool) (x y m m_actual : F) :
    (print_line_form mode subtract90 x y m m_actual).render =
      print_line mode subtract90 x y m m_actual := by
  unfold print_line_form print_line
  cases h0 : CFloat.ne m_actual (lit 0) <;> cases h1 : CFloat.ne m_actual (lit 1) <;>
    cases hx : CFloat.ne x (lit 0) <;> cases hy : CFloat.ne y (lit 0) <;>
    cases mode <;> cases subtract90 <;>
    simp only [PrintedLine.render, PrintedCoefficient.render, PrintedAngle.render,
      String.append_assoc, String.append_empty, String.empty_append, if_true, if_false,
      ne_eq, not_true_eq_false, not_false_eq_true, reduceCtorEq, decide_True, decide_False,
      Bool.and_true, Bool.and_false, Bool.true_and, Bool.false_and, Bool.false_eq_true]

/-- In exact arithmetic the reading of `print_line_form x1 y1 s m` is the line through
`(x1, y1)` with gradient `m`, when `m` is the gradient resolved from `s`. -/
theorem print_line_form_denote {F : Type} [Field F] [CharZero F] [CFloat F] [CMath F]
    (hlit : ∀ n : Nat, (lit n : F) = (n : F))
    (hne : ∀ a b : F, CFloat.ne a b = true ↔ a ≠ b)
    (hpi : (M_PI_2 : F) = M_PI / 2)
    (mode : Mode) (subtract90 : Bool) (x1 y1 s m x : F)
    (hm : m = (resolve_gradients mode subtract90 (⟨x1, y1, s, s⟩, ⟨x1, y1, s, s⟩)).1.gradient) :
    (print_line_form mode subtract90 x1 y1 s m).denote x = m * (x - x1) + y1 := by
  have h0 : (lit 0 : F) = 0 := by rw [hlit]; simp
  have h1 : (lit 1 : F) = 1 := by rw [hlit]; simp
  have h2 : (lit 2 : F) = 2 := by rw [hlit]; simp
  have h90 : (lit 90 : F) = 90 := by rw [hlit]; simp
  have h180 : (lit 180 : F) = 180 := by rw [hlit]; simp
  have hneF : ∀ a b : F, CFloat.ne a b = false ↔ a = b := by
    intro a b
    rw [← not_iff_not, Bool.not_eq_false, hne]
  have hcoef : (if mode ≠ GRADIENT then
        PrintedCoefficient.tangent ⟨s, decide (mode = DEGREES),
          subtract90 && decide (mode = RADIANS), subtract90 && decide (mode = DEGREES)⟩
      else PrintedCoefficient.number s).denote = m := by
    rw [hm]
    cases mode <;> cases subtract90 <;>
      simp [resolve_gradients, resolve_radians, PrintedCoefficient.denote, PrintedAngle.denote,
        h2, h90, h180, hpi]
    · congr 1; ring
  unfold print_line_form
  cases hc0 : CFloat.ne m (lit 0)
  · rw [hneF, h0] at hc0
    simp [PrintedLine.denote, hc0]
  · have hx : (match (if CFloat.ne x1 (lit 0) = true then some (-x1) else none) with
        | some v => x + v | none => x) = x - x1 := by
      cases hcx : CFloat.ne x1 (lit 0)
      · rw [hneF, h0] at hcx
        simp [hcx]
      · simp; ring
    have hy : ∀ p : F, (match (if CFloat.ne y1 (lit 0) = true then some y1 else none) with
        | some v => p + v | none => p) = p + y1 := by
      intro p
      cases hcy : CFloat.ne y1 (lit 0)
      · rw [hneF, h0] at hcy
        simp [hcy]
      · simp
    simp only [if_true, PrintedLine.denote]
    rw [hy, hx]
    congr 2
    cases hc1 : CFloat.ne m (lit 1)
    · rw [hneF, h1] at hc1
      simp [h1, hc1]
    · simp only [if_true]
      exact hcoef

/-- The second line is resolved as the first one is: `resolve_gradients` treats the two lines
alike. -/
theorem resolve_gradients_snd {F : Type} [Sub F] [Mul F] [Div F] [CFloat F] [CMath F]
    (mode : Mode) (subtract90 : Bool) (l1 l2 : Line F) :
    (resolve_gradients mode subtract90 (l1, l2)).2 =
      (resolve_gradients mode subtract90 (l2, l2)).1 := by
  cases mode <;> rfl

/-- The first line is resolved without regard to the second. -/
theorem resolve_gradients_fst {F : Type} [Sub F] [Mul F] [Div F] [CFloat F] [CMath F]
    (mode : Mode) (subtract90 : Bool) (l1 l2 : Line F) :
    (resolve_gradients mode subtract90 (l1, l2)).1 =
      (resolve_gradients mode subtract90 (l1, l1)).1 := by
  cases mode <;> rfl

/-- Resolving the gradients leaves offsets and the gradient as typed unchanged. -/
theorem resolve_gradients_fields {F : Type} [Sub F] [Mul F] [Div F] [CFloat F] [CMath F]
    (mode : Mode) (subtract90 : Bool) (l1 l2 : Line F) :
    (resolve_gradients mode subtract90 (l1, l2)).1.x = l1.x ∧
    (resolve_gradients mode subtract90 (l1, l2)).1.y = l1.y ∧
    (resolve_gradients mode subtract90 (l1, l2)).1.gradient_input = l1.gradient_input := by
  cases mode <;> exact ⟨rfl, rfl, rfl⟩

/-! ## C16: the printed equation denotes the line solved -/

/-- Theorem C16: in exact arithmetic (a field of characteristic zero in which integer constants
are themselves, `!=` is inequality and `M_PI_2` is `M_PI / 2`), for every mode, subtract flag,
offsets and typed gradients, with `lines` the two lines after `resolve_gradients` (the lines
handed to `solve` and to `print_result`): what `print_line` writes for each line is the text of
`print_line_form`, and that form read as an expression in `x` (an omitted coefficient meaning
1, `tan(...)` the tangent of the printed angle with `°` meaning degrees, `(x+c)` meaning
`x + c`) has the value `m * (x - x1) + y1` at every `x`, where `m` is the resolved gradient. -/
theorem C16_printed_equation_denotes_line {F : Type} [Field F] [CharZero F] [CFloat F]
    [CLibc F] [CMath F]
    (hlit : ∀ n : Nat, (lit n : F) = (n : F))
    (hne : ∀ a b : F, CFloat.ne a b = true ↔ a ≠ b)
    (hpi : (M_PI_2 : F) = M_PI / 2)
    (mode : Mode) (subtract90 : Bool) (x1 y1 m1_ x2 y2 m2_ x : F) (lines : Line F × Line F)
    (hl : lines = resolve_gradients mode subtract90 (⟨x1, y1, m1_, m1_⟩, ⟨x2, y2, m2_, m2_⟩)) :
    (print_line mode subtract90 lines.1.x lines.1.y lines.1.gradient_input lines.1.gradient =
        (print_line_form mode subtract90 lines.1.x lines.1.y lines.1.gradient_input
          lines.1.gradient).render ∧
      (print_line_form mode subtract90 lines.1.x lines.1.y lines.1.gradient_input
        lines.1.gradient).denote x = lines.1.gradient * (x - x1) + y1) ∧
    (print_line mode subtract90 lines.2.x lines.2.y lines.2.gradient_input lines.2.gradient =
        (print_line_form mode subtract90 lines.2.x lines.2.y lines.2.gradient_input
          lines.2.gradient).render ∧
      (print_line_form mode subtract90 lines.2.x lines.2.y lines.2.gradient_input
        lines.2.gradient).denote x = lines.2.gradient * (x - x2) + y2) := by
  subst hl
  refine ⟨⟨(print_line_form_render _ _ _ _ _ _).symm, ?_⟩,
    ⟨(print_line_form_render _ _ _ _ _ _).symm, ?_⟩⟩
  · obtain ⟨ex, ey, em⟩ := resolve_gradients_fields mode subtract90
      (⟨x1, y1, m1_, m1_⟩ : Line F) ⟨x2, y2, m2_, m2_⟩
    rw [ex, ey, em]
    exact print_line_form_denote hlit hne hpi mode subtract90 x1 y1 m1_ _ x
      (by rw [resolve_gradients_fst])
  · rw [resolve_gradients_snd]
    obtain ⟨ex, ey, em⟩ := resolve_gradients_fields mode subtract90
      (⟨x2, y2, m2_, m2_⟩ : Line F) ⟨x2, y2, m2_, m2_⟩
    rw [ex, ey, em]
    exact print_line_form_denote hlit hne hpi mode subtract90 x2 y2 m2_ _ x rfl

/-- Witness for C16 over the real numbers with the real tangent and `π`: degrees mode with the
subtract flag, the lines through `(1, 2)` typed `135` and through `(0, 0)` typed `90`, read at
`x = 3`. -/
theorem C16_printed_equation_denotes_line_witness :
    letI : CFloat ℝ :=
      ⟨fun n => (n : ℝ), fun a b => decide (a ≠ b), fun a => if a = 0 then FP_ZERO else FP_NORMAL⟩
    letI : CLibc ℝ := ⟨fun _ => (0, 0), fun _ _ _ => ""⟩
    letI : CMath ℝ := ⟨Real.tan, Real.pi, Real.pi / 2⟩
    (print_line_form DEGREES true (1 : ℝ) 2 135
        (resolve_gradients DEGREES true
          ((⟨1, 2, 135, 135⟩ : Line ℝ), (⟨0, 0, 90, 90⟩ : Line ℝ))).1.gradient).denote 3 =
      (resolve_gradients DEGREES true
          ((⟨1, 2, 135, 135⟩ : Line ℝ), (⟨0, 0, 90, 90⟩ : Line ℝ))).1.gradient * (3 - 1) + 2 :=
  letI : CFloat ℝ :=
    ⟨fun n => (n : ℝ), fun a b => decide (a ≠ b), fun a => if a = 0 then FP_ZERO else FP_NORMAL⟩
  letI : CLibc ℝ := ⟨fun _ => (0, 0), fun _ _ _ => ""⟩
  letI : CMath ℝ := ⟨Real.tan, Real.pi, Real.pi / 2⟩
  (C16_printed_equation_denotes_line (fun _ => rfl) (fun a b => by simp [CFloat.ne]) rfl
    DEGREES true (1 : ℝ) 2 135 0 0 90 3 _ rfl).1.2

end LinearIntersection
